import Mathlib

/-!
Verification of the `boost::compute::command_queue` wrapper
(src/include/boost/compute/command_queue.hpp).

The embedding models the wrapper layer over the opaque OpenCL backend:
every `clEnqueue*` entry point the wrapper may invoke is a constructor of
`ClCall`; the backend itself is a `Backend` record assigning to each call
the status code it returns, the event it records in a supplied event slot,
and (for map calls) the mapped host pointer.  Each `enqueue_*` method of
the C++ class becomes a Lean function returning
`Option (List ClCall × Except ClStatus _)`: `none` models a failed
`BOOST_ASSERT` precondition (debug-mode abort), the list is the exact
sequence of backend entry points invoked, and the `Except` carries the
`opencl_error` status thrown by `BOOST_THROW_EXCEPTION(opencl_error(ret))`.
Pointers, handles and contexts are modelled as `Nat` ids (`0` = null).
-/

namespace Compute

/-- Status code type of the backend (cl_int). -/
abbrev ClStatus := Int

/-- CL_SUCCESS. -/
def CL_SUCCESS : ClStatus := 0

/-- CL_INVALID_DEVICE, the code the wrapper throws at every capability gate. -/
def CL_INVALID_DEVICE : ClStatus := -33

/-- A size_t[3] array (origins / regions). -/
structure Size3 where
  x : Nat
  y : Nat
  z : Nat
deriving DecidableEq

/-- The two data members of `boost::compute::command_queue`: the native
queue handle `m_queue` (0 = null) and the mutable cached device capability
version `m_version` (0 = unknown, resolve on first use). -/
structure command_queue where
  m_queue : Nat
  m_version : Nat
deriving DecidableEq

/-- A `boost::compute::buffer` as the wrapper observes it: native id,
`size()` and `get_context()`. -/
structure buffer where
  id : Nat
  size : Nat
  ctx : Nat
deriving DecidableEq

/-- An image object as the wrapper observes it: native id, context,
`width()`, `height()`, `depth()` and `CL_IMAGE_ELEMENT_SIZE`. -/
structure image_object where
  id : Nat
  ctx : Nat
  width : Nat
  height : Nat
  depth : Nat
  element_size : Nat
deriving DecidableEq

/-- A kernel as the wrapper observes it: native id and context. -/
structure kernel where
  id : Nat
  ctx : Nat
deriving DecidableEq

/-- One invocation of an OpenCL clEnqueue* entry point, with the argument
values the wrapper passes.  Wait lists are recorded by their size
(`events.size()`), the event out-pointer by whether it was non-null
(`hasSlot`), pointers and object handles as `Nat` ids. -/
inductive ClCall : Type where
  | readBuffer (queue buf : Nat) (blocking : Bool)
      (offset size hostPtr numEvents : Nat) (hasSlot : Bool)
  | readBufferRect (queue buf : Nat) (blocking : Bool)
      (bufferOrigin hostOrigin region : Size3)
      (bufferRowPitch bufferSlicePitch hostRowPitch hostSlicePitch
       hostPtr numEvents : Nat) (hasSlot : Bool)
  | writeBuffer (queue buf : Nat) (blocking : Bool)
      (offset size hostPtr numEvents : Nat) (hasSlot : Bool)
  | writeBufferRect (queue buf : Nat) (blocking : Bool)
      (bufferOrigin hostOrigin region : Size3)
      (bufferRowPitch bufferSlicePitch hostRowPitch hostSlicePitch
       hostPtr numEvents : Nat) (hasSlot : Bool)
  | copyBuffer (queue src dst srcOffset dstOffset size numEvents : Nat)
      (hasSlot : Bool)
  | copyBufferRect (queue src dst : Nat) (srcOrigin dstOrigin region : Size3)
      (bufferRowPitch bufferSlicePitch hostRowPitch hostSlicePitch
       numEvents : Nat) (hasSlot : Bool)
  | fillBuffer (queue buf pattern patternSize offset size numEvents : Nat)
      (hasSlot : Bool)
  | mapBuffer (queue buf : Nat) (blocking : Bool)
      (flags offset size numEvents : Nat) (hasSlot : Bool)
  | mapImage (queue img : Nat) (blocking : Bool) (flags : Nat)
      (origin region : Size3) (numEvents : Nat) (hasSlot : Bool)
  | unmapMemObject (queue mem mappedPtr numEvents : Nat) (hasSlot : Bool)
  | readImage (queue img : Nat) (blocking : Bool) (origin region : Size3)
      (rowPitch slicePitch hostPtr numEvents : Nat) (hasSlot : Bool)
  | writeImage (queue img : Nat) (blocking : Bool) (origin region : Size3)
      (inputRowPitch inputSlicePitch hostPtr numEvents : Nat) (hasSlot : Bool)
  | copyImage (queue srcImg dstImg : Nat) (srcOrigin dstOrigin region : Size3)
      (numEvents : Nat) (hasSlot : Bool)
  | copyImageToBuffer (queue srcImg dstBuf : Nat) (srcOrigin region : Size3)
      (dstOffset numEvents : Nat) (hasSlot : Bool)
  | copyBufferToImage (queue srcBuf dstImg srcOffset : Nat)
      (dstOrigin region : Size3) (numEvents : Nat) (hasSlot : Bool)
  | fillImage (queue img fillColor : Nat) (origin region : Size3)
      (numEvents : Nat) (hasSlot : Bool)
  | migrateMemObjects (queue numMemObjects memObjects flags numEvents : Nat)
      (hasSlot : Bool)
  | ndRangeKernel (queue kern workDim : Nat)
      (globalWorkOffset globalWorkSize localWorkSize : Option (List Nat))
      (numEvents : Nat) (hasSlot : Bool)
  | task (queue kern numEvents : Nat) (hasSlot : Bool)
  | nativeKernel (queue userFunc args cbArgs numMemObjects memList
      argsMemLoc numEvents : Nat) (hasSlot : Bool)
  | barrier (queue : Nat)
  | barrierWithWaitList (queue numEvents : Nat) (hasSlot : Bool)
  | marker (queue : Nat) (hasSlot : Bool)
  | markerWithWaitList (queue numEvents : Nat) (hasSlot : Bool)
  | svmMemcpy (queue : Nat) (blocking : Bool)
      (dstPtr srcPtr size numEvents : Nat) (hasSlot : Bool)
  | svmMemFill (queue svmPtr pattern patternSize size numEvents : Nat)
      (hasSlot : Bool)
  | svmFree (queue numSvmPointers svmPtr pfnFreeFunc userData numEvents : Nat)
      (hasSlot : Bool)
  | svmMap (queue : Nat) (blocking : Bool) (flags svmPtr size numEvents : Nat)
      (hasSlot : Bool)
  | svmUnmap (queue svmPtr numEvents : Nat) (hasSlot : Bool)
deriving DecidableEq

/-- The blocking flag of a call, for entry points that take one. -/
def ClCall.blockingFlag : ClCall → Option Bool
  | .readBuffer _ _ b _ _ _ _ _ => some b
  | .readBufferRect _ _ b _ _ _ _ _ _ _ _ _ _ => some b
  | .writeBuffer _ _ b _ _ _ _ _ => some b
  | .writeBufferRect _ _ b _ _ _ _ _ _ _ _ _ _ => some b
  | .mapBuffer _ _ b _ _ _ _ _ => some b
  | .mapImage _ _ b _ _ _ _ _ => some b
  | .readImage _ _ b _ _ _ _ _ _ _ => some b
  | .writeImage _ _ b _ _ _ _ _ _ _ => some b
  | .svmMemcpy _ b _ _ _ _ _ => some b
  | .svmMap _ b _ _ _ _ _ => some b
  | _ => none

/-- The opaque OpenCL backend: for each call, the status code it returns,
the event id it records in a supplied event slot, and for map calls the
mapped host pointer. -/
structure Backend where
  status : ClCall → ClStatus
  newEvent : ClCall → Nat
  mapPtr : ClCall → Nat

deriving instance DecidableEq for Except

/-- A backend environment that accepts every call with CL_SUCCESS. -/
def okBackend : Backend := ⟨fun _ => CL_SUCCESS, fun _ => 0, fun _ => 0⟩

/-- A backend environment that rejects every call with status e. -/
def failBackend (e : ClStatus) : Backend := ⟨fun _ => e, fun _ => 0, fun _ => 0⟩

/-- Result of `command_queue::get_version()` on a queue whose cached
`m_version` is `m_version` and whose device reports `devVersion`:
the value returned, the cached value afterwards, and whether the device
was queried. -/
structure GetVersionResult where
  value : Nat
  cache : Nat
  queried : Bool
deriving DecidableEq

/-- command_queue::get_version(): `if (m_version == 0) m_version =
get_device().get_version(); return m_version;`. -/
def get_version (m_version devVersion : Nat) : GetVersionResult :=
  if m_version = 0 then ⟨devVersion, devVersion, true⟩
  else ⟨m_version, m_version, false⟩

/-- Result of a void-returning enqueue method: the backend calls made and
either the thrown `opencl_error` status or, on success, the event id the
caller-supplied slot now holds (`none` when no slot was passed). -/
abbrev EnqueueResult := List ClCall × Except ClStatus (Option Nat)

/-- Result of a map-returning enqueue method: as `EnqueueResult` but the
success value also carries the mapped pointer. -/
abbrev MapResult := List ClCall × Except ClStatus (Nat × Option Nat)

/-- Shared tail of every checked enqueue method: issue the call, then
`if(ret != CL_SUCCESS){ BOOST_THROW_EXCEPTION(opencl_error(ret)); }`. -/
def submit (B : Backend) (c : ClCall) (slot : Bool) : EnqueueResult :=
  ([c],
   if B.status c ≠ CL_SUCCESS then Except.error (B.status c)
   else Except.ok (if slot then some (B.newEvent c) else none))

/-- Shared tail of the two map methods: issue the call, check the status
written through the out parameter, return the mapped pointer. -/
def submitMap (B : Backend) (c : ClCall) (slot : Bool) : MapResult :=
  ([c],
   if B.status c ≠ CL_SUCCESS then Except.error (B.status c)
   else Except.ok (B.mapPtr c, if slot then some (B.newEvent c) else none))

/-! ### Buffer operations -/

/-- command_queue::enqueue_read_buffer.  Asserts, in order:
`m_queue != 0`, `size <= buffer.size()`, matching contexts,
`host_ptr != 0`; then calls clEnqueueReadBuffer with blocking =
`event_ ? CL_FALSE : CL_TRUE`. -/
def enqueue_read_buffer (q : command_queue) (buf : buffer) (qCtx : Nat)
    (offset size hostPtr numEvents : Nat) (slot : Bool) (B : Backend) :
    Option EnqueueResult :=
  if q.m_queue = 0 then none
  else if ¬ size ≤ buf.size then none
  else if ¬ buf.ctx = qCtx then none
  else if hostPtr = 0 then none
  else some (submit B
    (.readBuffer q.m_queue buf.id (!slot) offset size hostPtr numEvents slot)
    slot)

/-- command_queue::enqueue_read_buffer_async: declares a fresh event and
forwards to enqueue_read_buffer with its address, returning the event. -/
def enqueue_read_buffer_async (q : command_queue) (buf : buffer) (qCtx : Nat)
    (offset size hostPtr numEvents : Nat) (B : Backend) :
    Option EnqueueResult :=
  enqueue_read_buffer q buf qCtx offset size hostPtr numEvents true B

/-- command_queue::enqueue_read_buffer_rect.  Asserts queue, contexts and
host pointer; throws opencl_error(CL_INVALID_DEVICE) when
`get_version() < 110`; then calls clEnqueueReadBufferRect. -/
def enqueue_read_buffer_rect (q : command_queue) (devVer : Nat)
    (buf : buffer) (qCtx : Nat) (bufferOrigin hostOrigin region : Size3)
    (bufferRowPitch bufferSlicePitch hostRowPitch hostSlicePitch
     hostPtr numEvents : Nat) (slot : Bool) (B : Backend) :
    Option EnqueueResult :=
  if q.m_queue = 0 then none
  else if ¬ buf.ctx = qCtx then none
  else if hostPtr = 0 then none
  else if (get_version q.m_version devVer).value < 110 then
    some ([], Except.error CL_INVALID_DEVICE)
  else some (submit B
    (.readBufferRect q.m_queue buf.id (!slot) bufferOrigin hostOrigin region
      bufferRowPitch bufferSlicePitch hostRowPitch hostSlicePitch
      hostPtr numEvents slot) slot)

/-- command_queue::enqueue_write_buffer.  Same assertion sequence as the
read: `m_queue != 0`, `size <= buffer.size()`, contexts, host pointer. -/
def enqueue_write_buffer (q : command_queue) (buf : buffer) (qCtx : Nat)
    (offset size hostPtr numEvents : Nat) (slot : Bool) (B : Backend) :
    Option EnqueueResult :=
  if q.m_queue = 0 then none
  else if ¬ size ≤ buf.size then none
  else if ¬ buf.ctx = qCtx then none
  else if hostPtr = 0 then none
  else some (submit B
    (.writeBuffer q.m_queue buf.id (!slot) offset size hostPtr numEvents slot)
    slot)

/-- command_queue::enqueue_write_buffer_async. -/
def enqueue_write_buffer_async (q : command_queue) (buf : buffer) (qCtx : Nat)
    (offset size hostPtr numEvents : Nat) (B : Backend) :
    Option EnqueueResult :=
  enqueue_write_buffer q buf qCtx offset size hostPtr numEvents true B

/-- command_queue::enqueue_write_buffer_rect (gate: version ≥ 1.1). -/
def enqueue_write_buffer_rect (q : command_queue) (devVer : Nat)
    (buf : buffer) (qCtx : Nat) (bufferOrigin hostOrigin region : Size3)
    (bufferRowPitch bufferSlicePitch hostRowPitch hostSlicePitch
     hostPtr numEvents : Nat) (slot : Bool) (B : Backend) :
    Option EnqueueResult :=
  if q.m_queue = 0 then none
  else if ¬ buf.ctx = qCtx then none
  else if hostPtr = 0 then none
  else if (get_version q.m_version devVer).value < 110 then
    some ([], Except.error CL_INVALID_DEVICE)
  else some (submit B
    (.writeBufferRect q.m_queue buf.id (!slot) bufferOrigin hostOrigin region
      bufferRowPitch bufferSlicePitch hostRowPitch hostSlicePitch
      hostPtr numEvents slot) slot)

/-- command_queue::enqueue_copy_buffer.  Asserts `m_queue != 0`,
`src_offset + size <= src_buffer.size()`,
`dst_offset + size <= dst_buffer.size()`, and both contexts. -/
def enqueue_copy_buffer (q : command_queue) (src dst : buffer) (qCtx : Nat)
    (srcOffset dstOffset size numEvents : Nat) (slot : Bool) (B : Backend) :
    Option EnqueueResult :=
  if q.m_queue = 0 then none
  else if ¬ srcOffset + size ≤ src.size then none
  else if ¬ dstOffset + size ≤ dst.size then none
  else if ¬ src.ctx = qCtx then none
  else if ¬ dst.ctx = qCtx then none
  else some (submit B
    (.copyBuffer q.m_queue src.id dst.id srcOffset dstOffset size numEvents
      slot) slot)

/-- command_queue::enqueue_copy_buffer_async. -/
def enqueue_copy_buffer_async (q : command_queue) (src dst : buffer)
    (qCtx : Nat) (srcOffset dstOffset size numEvents : Nat) (B : Backend) :
    Option EnqueueResult :=
  enqueue_copy_buffer q src dst qCtx srcOffset dstOffset size numEvents true B

/-- command_queue::enqueue_copy_buffer_rect (gate: version ≥ 1.1). -/
def enqueue_copy_buffer_rect (q : command_queue) (devVer : Nat)
    (src dst : buffer) (qCtx : Nat) (srcOrigin dstOrigin region : Size3)
    (bufferRowPitch bufferSlicePitch hostRowPitch hostSlicePitch
     numEvents : Nat) (slot : Bool) (B : Backend) : Option EnqueueResult :=
  if q.m_queue = 0 then none
  else if ¬ src.ctx = qCtx then none
  else if ¬ dst.ctx = qCtx then none
  else if (get_version q.m_version devVer).value < 110 then
    some ([], Except.error CL_INVALID_DEVICE)
  else some (submit B
    (.copyBufferRect q.m_queue src.id dst.id srcOrigin dstOrigin region
      bufferRowPitch bufferSlicePitch hostRowPitch hostSlicePitch numEvents
      slot) slot)

/-- command_queue::enqueue_fill_buffer.  Asserts `m_queue != 0`,
`offset + size <= buffer.size()` and the context; gate: version ≥ 1.2. -/
def enqueue_fill_buffer (q : command_queue) (devVer : Nat) (buf : buffer)
    (qCtx : Nat) (pattern patternSize offset size numEvents : Nat)
    (slot : Bool) (B : Backend) : Option EnqueueResult :=
  if q.m_queue = 0 then none
  else if ¬ offset + size ≤ buf.size then none
  else if ¬ buf.ctx = qCtx then none
  else if (get_version q.m_version devVer).value < 120 then
    some ([], Except.error CL_INVALID_DEVICE)
  else some (submit B
    (.fillBuffer q.m_queue buf.id pattern patternSize offset size numEvents
      slot) slot)

/-- command_queue::enqueue_fill_buffer_async. -/
def enqueue_fill_buffer_async (q : command_queue) (devVer : Nat)
    (buf : buffer) (qCtx : Nat)
    (pattern patternSize offset size numEvents : Nat) (B : Backend) :
    Option EnqueueResult :=
  enqueue_fill_buffer q devVer buf qCtx pattern patternSize offset size
    numEvents true B

/-- command_queue::enqueue_map_buffer. -/
def enqueue_map_buffer (q : command_queue) (buf : buffer) (qCtx : Nat)
    (flags offset size numEvents : Nat) (slot : Bool) (B : Backend) :
    Option MapResult :=
  if q.m_queue = 0 then none
  else if ¬ offset + size ≤ buf.size then none
  else if ¬ buf.ctx = qCtx then none
  else some (submitMap B
    (.mapBuffer q.m_queue buf.id (!slot) flags offset size numEvents slot)
    slot)

/-- command_queue::enqueue_map_image (pointer overload). -/
def enqueue_map_image (q : command_queue) (img : image_object) (qCtx : Nat)
    (flags : Nat) (origin region : Size3) (numEvents : Nat) (slot : Bool)
    (B : Backend) : Option MapResult :=
  if q.m_queue = 0 then none
  else if ¬ img.ctx = qCtx then none
  else some (submitMap B
    (.mapImage q.m_queue img.id (!slot) flags origin region numEvents slot)
    slot)

/-- command_queue::enqueue_unmap_mem_object. -/
def enqueue_unmap_mem_object (q : command_queue)
    (mem mappedPtr numEvents : Nat) (slot : Bool) (B : Backend) :
    Option EnqueueResult :=
  if q.m_queue = 0 then none
  else some (submit B
    (.unmapMemObject q.m_queue mem mappedPtr numEvents slot) slot)

/-- command_queue::enqueue_unmap_buffer: asserts the context, then
forwards to enqueue_unmap_mem_object with mem_object.get(). -/
def enqueue_unmap_buffer (q : command_queue) (memId memCtx qCtx : Nat)
    (mappedPtr numEvents : Nat) (slot : Bool) (B : Backend) :
    Option EnqueueResult :=
  if ¬ memCtx = qCtx then none
  else enqueue_unmap_mem_object q memId mappedPtr numEvents slot B

/-! ### Image operations -/

/-- command_queue::enqueue_read_image (pointer overload; its only
assertion is `m_queue != 0`). -/
def enqueue_read_image (q : command_queue) (img : image_object)
    (origin region : Size3) (rowPitch slicePitch hostPtr numEvents : Nat)
    (slot : Bool) (B : Backend) : Option EnqueueResult :=
  if q.m_queue = 0 then none
  else some (submit B
    (.readImage q.m_queue img.id (!slot) origin region rowPitch slicePitch
      hostPtr numEvents slot) slot)

/-- command_queue::enqueue_write_image (pointer overload). -/
def enqueue_write_image (q : command_queue) (img : image_object)
    (origin region : Size3)
    (inputRowPitch inputSlicePitch hostPtr numEvents : Nat) (slot : Bool)
    (B : Backend) : Option EnqueueResult :=
  if q.m_queue = 0 then none
  else some (submit B
    (.writeImage q.m_queue img.id (!slot) origin region inputRowPitch
      inputSlicePitch hostPtr numEvents slot) slot)

/-- command_queue::enqueue_copy_image (pointer overload). -/
def enqueue_copy_image (q : command_queue) (srcImg dstImg : image_object)
    (srcOrigin dstOrigin region : Size3) (numEvents : Nat) (slot : Bool)
    (B : Backend) : Option EnqueueResult :=
  if q.m_queue = 0 then none
  else some (submit B
    (.copyImage q.m_queue srcImg.id dstImg.id srcOrigin dstOrigin region
      numEvents slot) slot)

/-- command_queue::enqueue_copy_image_to_buffer. -/
def enqueue_copy_image_to_buffer (q : command_queue) (srcImg : image_object)
    (dstBuf : buffer) (srcOrigin region : Size3) (dstOffset numEvents : Nat)
    (slot : Bool) (B : Backend) : Option EnqueueResult :=
  if q.m_queue = 0 then none
  else some (submit B
    (.copyImageToBuffer q.m_queue srcImg.id dstBuf.id srcOrigin region
      dstOffset numEvents slot) slot)

/-- command_queue::enqueue_copy_buffer_to_image. -/
def enqueue_copy_buffer_to_image (q : command_queue) (srcBuf : buffer)
    (dstImg : image_object) (srcOffset : Nat) (dstOrigin region : Size3)
    (numEvents : Nat) (slot : Bool) (B : Backend) : Option EnqueueResult :=
  if q.m_queue = 0 then none
  else some (submit B
    (.copyBufferToImage q.m_queue srcBuf.id dstImg.id srcOffset dstOrigin
      region numEvents slot) slot)

/-- command_queue::enqueue_fill_image.  The version gate comes first here
(`if (get_version() < 120) throw; else { asserts; call; }`). -/
def enqueue_fill_image (q : command_queue) (devVer : Nat)
    (img : image_object) (qCtx fillColor : Nat) (origin region : Size3)
    (numEvents : Nat) (slot : Bool) (B : Backend) : Option EnqueueResult :=
  if (get_version q.m_version devVer).value < 120 then
    some ([], Except.error CL_INVALID_DEVICE)
  else if q.m_queue = 0 then none
  else if ¬ img.ctx = qCtx then none
  else some (submit B
    (.fillImage q.m_queue img.id fillColor origin region numEvents slot) slot)

/-- command_queue::enqueue_migrate_memory_objects (gate: version ≥ 1.2). -/
def enqueue_migrate_memory_objects (q : command_queue) (devVer : Nat)
    (numMemObjects memObjects flags numEvents : Nat) (slot : Bool)
    (B : Backend) : Option EnqueueResult :=
  if q.m_queue = 0 then none
  else if (get_version q.m_version devVer).value < 120 then
    some ([], Except.error CL_INVALID_DEVICE)
  else some (submit B
    (.migrateMemObjects q.m_queue numMemObjects memObjects flags numEvents
      slot) slot)

/-! ### Kernel dispatch -/

/-- command_queue::enqueue_nd_range_kernel (pointer overload).  Asserts
`m_queue != 0`, `work_dim > 0`, matching context. -/
def enqueue_nd_range_kernel (q : command_queue) (kern : kernel) (qCtx : Nat)
    (workDim : Nat) (globalWorkOffset globalWorkSize localWorkSize :
    Option (List Nat)) (numEvents : Nat) (slot : Bool) (B : Backend) :
    Option EnqueueResult :=
  if q.m_queue = 0 then none
  else if workDim = 0 then none
  else if ¬ kern.ctx = qCtx then none
  else some (submit B
    (.ndRangeKernel q.m_queue kern.id workDim globalWorkOffset globalWorkSize
      localWorkSize numEvents slot) slot)

/-- command_queue::enqueue_nd_range_kernel_async. -/
def enqueue_nd_range_kernel_async (q : command_queue) (kern : kernel)
    (qCtx : Nat) (workDim : Nat)
    (globalWorkOffset globalWorkSize localWorkSize : Option (List Nat))
    (numEvents : Nat) (B : Backend) : Option EnqueueResult :=
  enqueue_nd_range_kernel q kern qCtx workDim globalWorkOffset globalWorkSize
    localWorkSize numEvents true B

/-- command_queue::enqueue_1d_range_kernel: forwards to
enqueue_nd_range_kernel with dimension 1, the addresses of its offset and
size arguments, and a null local size when `local_work_size == 0`. -/
def enqueue_1d_range_kernel (q : command_queue) (kern : kernel) (qCtx : Nat)
    (globalWorkOffset globalWorkSize localWorkSize numEvents : Nat)
    (slot : Bool) (B : Backend) : Option EnqueueResult :=
  enqueue_nd_range_kernel q kern qCtx 1 (some [globalWorkOffset])
    (some [globalWorkSize])
    (if localWorkSize = 0 then none else some [localWorkSize]) numEvents
    slot B

/-- command_queue::enqueue_1d_range_kernel_async. -/
def enqueue_1d_range_kernel_async (q : command_queue) (kern : kernel)
    (qCtx : Nat) (globalWorkOffset globalWorkSize localWorkSize
    numEvents : Nat) (B : Backend) : Option EnqueueResult :=
  enqueue_1d_range_kernel q kern qCtx globalWorkOffset globalWorkSize
    localWorkSize numEvents true B

/-- command_queue::enqueue_task.  On devices with version ≥ 200 (where
clEnqueueTask was deprecated) it forwards to clEnqueueNDRangeKernel with
`work_dim = 1`, null global offset, and `&one` for both the global and
local work size; otherwise it calls clEnqueueTask. -/
def enqueue_task (q : command_queue) (devVer : Nat) (kern : kernel)
    (qCtx numEvents : Nat) (slot : Bool) (B : Backend) :
    Option EnqueueResult :=
  if q.m_queue = 0 then none
  else if ¬ kern.ctx = qCtx then none
  else if (get_version q.m_version devVer).value ≥ 200 then
    some (submit B
      (.ndRangeKernel q.m_queue kern.id 1 none (some [1]) (some [1])
        numEvents slot) slot)
  else
    some (submit B (.task q.m_queue kern.id numEvents slot) slot)

/-- command_queue::enqueue_native_kernel (general overload). -/
def enqueue_native_kernel (q : command_queue)
    (userFunc args cbArgs numMemObjects memList argsMemLoc numEvents : Nat)
    (slot : Bool) (B : Backend) : Option EnqueueResult :=
  if q.m_queue = 0 then none
  else some (submit B
    (.nativeKernel q.m_queue userFunc args cbArgs numMemObjects memList
      argsMemLoc numEvents slot) slot)

/-! ### Barriers and markers -/

/-- command_queue::enqueue_barrier().  Dispatches on the version but
discards the status code of either backend call. -/
def enqueue_barrier (q : command_queue) (devVer : Nat) (_B : Backend) :
    Option EnqueueResult :=
  if q.m_queue = 0 then none
  else if (get_version q.m_version devVer).value ≥ 120 then
    some ([ClCall.barrierWithWaitList q.m_queue 0 false], Except.ok none)
  else
    some ([ClCall.barrier q.m_queue], Except.ok none)

/-- command_queue::enqueue_barrier(wait_list, event*).  Gate: version ≥
1.2.  The status of clEnqueueBarrierWithWaitList is discarded. -/
def enqueue_barrier_wl (q : command_queue) (devVer numEvents : Nat)
    (slot : Bool) (B : Backend) : Option EnqueueResult :=
  if q.m_queue = 0 then none
  else if (get_version q.m_version devVer).value < 120 then
    some ([], Except.error CL_INVALID_DEVICE)
  else
    some ([ClCall.barrierWithWaitList q.m_queue numEvents slot],
      Except.ok (if slot then
        some (B.newEvent (ClCall.barrierWithWaitList q.m_queue numEvents slot))
        else none))

/-- command_queue::enqueue_marker(event*): version-dependent dispatch,
status checked. -/
def enqueue_marker (q : command_queue) (devVer : Nat) (slot : Bool)
    (B : Backend) : Option EnqueueResult :=
  if (get_version q.m_version devVer).value ≥ 120 then
    some (submit B (.markerWithWaitList q.m_queue 0 slot) slot)
  else
    some (submit B (.marker q.m_queue slot) slot)

/-- command_queue::enqueue_marker(wait_list, event*) (gate: ≥ 1.2). -/
def enqueue_marker_wl (q : command_queue) (devVer numEvents : Nat)
    (slot : Bool) (B : Backend) : Option EnqueueResult :=
  if (get_version q.m_version devVer).value < 120 then
    some ([], Except.error CL_INVALID_DEVICE)
  else some (submit B (.markerWithWaitList q.m_queue numEvents slot) slot)

/-! ### Shared virtual memory operations (all gated on version ≥ 2.0,
with no precondition assertions) -/

/-- command_queue::enqueue_svm_memcpy. -/
def enqueue_svm_memcpy (q : command_queue) (devVer : Nat)
    (dstPtr srcPtr size numEvents : Nat) (slot : Bool) (B : Backend) :
    Option EnqueueResult :=
  if (get_version q.m_version devVer).value < 200 then
    some ([], Except.error CL_INVALID_DEVICE)
  else some (submit B
    (.svmMemcpy q.m_queue (!slot) dstPtr srcPtr size numEvents slot) slot)

/-- command_queue::enqueue_svm_memcpy_async. -/
def enqueue_svm_memcpy_async (q : command_queue) (devVer : Nat)
    (dstPtr srcPtr size numEvents : Nat) (B : Backend) :
    Option EnqueueResult :=
  enqueue_svm_memcpy q devVer dstPtr srcPtr size numEvents true B

/-- command_queue::enqueue_svm_fill. -/
def enqueue_svm_fill (q : command_queue) (devVer : Nat)
    (svmPtr pattern patternSize size numEvents : Nat) (slot : Bool)
    (B : Backend) : Option EnqueueResult :=
  if (get_version q.m_version devVer).value < 200 then
    some ([], Except.error CL_INVALID_DEVICE)
  else some (submit B
    (.svmMemFill q.m_queue svmPtr pattern patternSize size numEvents slot)
    slot)

/-- command_queue::enqueue_svm_free: passes one pointer and null callback
arguments to clEnqueueSVMFree. -/
def enqueue_svm_free (q : command_queue) (devVer : Nat)
    (svmPtr numEvents : Nat) (slot : Bool) (B : Backend) :
    Option EnqueueResult :=
  if (get_version q.m_version devVer).value < 200 then
    some ([], Except.error CL_INVALID_DEVICE)
  else some (submit B
    (.svmFree q.m_queue 1 svmPtr 0 0 numEvents slot) slot)

/-- command_queue::enqueue_svm_map. -/
def enqueue_svm_map (q : command_queue) (devVer : Nat)
    (svmPtr size flags numEvents : Nat) (slot : Bool) (B : Backend) :
    Option EnqueueResult :=
  if (get_version q.m_version devVer).value < 200 then
    some ([], Except.error CL_INVALID_DEVICE)
  else some (submit B
    (.svmMap q.m_queue (!slot) flags svmPtr size numEvents slot) slot)

/-- command_queue::enqueue_svm_unmap. -/
def enqueue_svm_unmap (q : command_queue) (devVer : Nat)
    (svmPtr numEvents : Nat) (slot : Bool) (B : Backend) :
    Option EnqueueResult :=
  if (get_version q.m_version devVer).value < 200 then
    some ([], Except.error CL_INVALID_DEVICE)
  else some (submit B (.svmUnmap q.m_queue svmPtr numEvents slot) slot)

/-! ### The image walk helper (enqueue_walk_image) -/

/-- Resolution of the origin argument of enqueue_walk_image:
`extents<3> origin3(0);` then overwritten componentwise when the caller
passed a non-null origin pointer. -/
def walk_image_origin3 (origin : Option Size3) : Size3 :=
  match origin with
  | none => ⟨0, 0, 0⟩
  | some o => o

/-- Resolution of the region argument of enqueue_walk_image:
`region3[0] = image.width(); region3[1] = max(1, image.height());
region3[2] = max(1, image.depth());` then overwritten componentwise when
the caller passed a non-null region pointer. -/
def walk_image_region3 (img : image_object) (region : Option Size3) : Size3 :=
  match region with
  | none => ⟨img.width, max 1 img.height, max 1 img.depth⟩
  | some r => r

/-- The element walk of enqueue_walk_image over the pointer returned by
the map call.  The source loops are
`for(d = origin3[2]; d < region3[2]; ++d)` (advancing pImage2D by
slice_pitch per iteration), inside it
`for(h = origin3[1]; h < region3[1]; ++h)` (advancing pImage1D by
row_pitch), inside it `for(w = origin3[0]; w < region3[0]; ++w)`
(advancing pElem by element_size), invoking
`walk_elemets(pElem, w, h, d)` at each step.  Each loop counter running
from `o` while `< r` takes the values `List.range' o (r - o)`, and a
pointer advanced by `p` per iteration sits at `base + (counter - o) * p`.
The list records, in invocation order, the address and the (w, h, d)
coordinates each call receives. -/
def walk_image_visits (base : Nat) (origin3 region3 : Size3)
    (row_pitch slice_pitch element_size : Nat) :
    List (Nat × Nat × Nat × Nat) :=
  (List.range' origin3.z (region3.z - origin3.z)).flatMap fun d =>
    (List.range' origin3.y (region3.y - origin3.y)).flatMap fun h =>
      (List.range' origin3.x (region3.x - origin3.x)).map fun w =>
        (base + (d - origin3.z) * slice_pitch + (h - origin3.y) * row_pitch
          + (w - origin3.x) * element_size, w, h, d)

/-- command_queue::enqueue_walk_image, reduced to its observable walk:
resolves the origin and region defaults, then (after mapping the image,
which reports base pointer, row pitch and slice pitch) walks the mapped
memory.  Returns the resolved origin, the resolved region, and the list
of per-element invocations. -/
def enqueue_walk_image (img : image_object) (origin region : Option Size3)
    (base row_pitch slice_pitch : Nat) :
    Size3 × Size3 × List (Nat × Nat × Nat × Nat) :=
  let origin3 := walk_image_origin3 origin
  let region3 := walk_image_region3 img region
  (origin3, region3,
    walk_image_visits base origin3 region3 row_pitch slice_pitch
      img.element_size)

/-- command_queue::enqueue_rawfill_image_walking (pointer overload):
builds the fillc functor and forwards origin and region unchanged to
enqueue_walk_image. -/
def enqueue_rawfill_image_walking (img : image_object)
    (origin region : Option Size3) (base row_pitch slice_pitch : Nat) :
    Size3 × Size3 × List (Nat × Nat × Nat × Nat) :=
  enqueue_walk_image img origin region base row_pitch slice_pitch

/-! ### Handle lifecycle (retain / release discipline)

The reference-count model: a `World` holds the live `command_queue`
objects together with the log of every clRetainCommandQueue and
clReleaseCommandQueue call made so far.  Each special member function of
the class is a `RefCmd` acting on the world; object identity is the
index into `objs`, so aliasing (self assignment, self move) is exact. -/

/-- command_queue(): the null queue, handle 0, cached version 0. -/
def command_queue.null : command_queue := ⟨0, 0⟩

/-- command_queue(cl_command_queue queue, bool retain): adopts a raw
handle with cached version 0, retaining it when it is non-null and
retain was requested.  The second component is the retain-call log. -/
def command_queue.fromRaw (h : Nat) (retain : Bool) :
    command_queue × List Nat :=
  (⟨h, 0⟩, if h ≠ 0 ∧ retain then [h] else [])

/-- The retain or release log entry produced by `if(m_queue){ cl...(m_queue); }`. -/
def retainIf (h : Nat) : List Nat := if h ≠ 0 then [h] else []

/-- Live command_queue objects plus the backend retain/release call logs. -/
structure World where
  objs : List command_queue
  retains : List Nat
  releases : List Nat
deriving DecidableEq

/-- One special-member-function step: default construction, raw adoption
(with retain), copy construction from the object at index i, copy
assignment of object s to object t, move construction from i, move
assignment of s to t, destruction of i. -/
inductive RefCmd : Type where
  | createNull : RefCmd
  | adoptRetain (h : Nat) : RefCmd
  | copyCtor (i : Nat) : RefCmd
  | copyAssign (t s : Nat) : RefCmd
  | moveCtor (i : Nat) : RefCmd
  | moveAssign (t s : Nat) : RefCmd
  | destroy (i : Nat) : RefCmd
deriving DecidableEq

/-- The effect of each special member function, from the source:
copy construction copies both members and retains a non-null handle;
copy assignment is a no-op on self assignment (`this != &other` guard),
otherwise releases the old non-null handle, copies both members, and
retains the new non-null handle; move construction copies both members
and zeroes both members of the source; move assignment (no self guard)
releases the old non-null handle, copies both members, and zeroes only
the source handle; the destructor releases a non-null handle. -/
def World.step (w : World) : RefCmd → Option World
  | .createNull => some { w with objs := w.objs ++ [command_queue.null] }
  | .adoptRetain h =>
    some { w with objs := w.objs ++ [(command_queue.fromRaw h true).1],
                  retains := w.retains ++ (command_queue.fromRaw h true).2 }
  | .copyCtor i =>
    if hi : i < w.objs.length then
      some { w with objs := w.objs ++ [w.objs[i]],
                    retains := w.retains ++ retainIf w.objs[i].m_queue }
    else none
  | .copyAssign t s =>
    if t = s then
      if t < w.objs.length then some w else none
    else if ht : t < w.objs.length then
      if hs : s < w.objs.length then
        some { objs := w.objs.set t w.objs[s],
               retains := w.retains ++ retainIf w.objs[s].m_queue,
               releases := w.releases ++ retainIf w.objs[t].m_queue }
      else none
    else none
  | .moveCtor i =>
    if hi : i < w.objs.length then
      some { w with objs := (w.objs.set i ⟨0, 0⟩) ++ [w.objs[i]] }
    else none
  | .moveAssign t s =>
    if t = s then
      if ht : t < w.objs.length then
        some { w with
          objs := w.objs.set t ⟨0, w.objs[t].m_version⟩,
          releases := w.releases ++ retainIf w.objs[t].m_queue }
      else none
    else if ht : t < w.objs.length then
      if hs : s < w.objs.length then
        some { w with
          objs := (w.objs.set t w.objs[s]).set s ⟨0, w.objs[s].m_version⟩,
          releases := w.releases ++ retainIf w.objs[t].m_queue }
      else none
    else none
  | .destroy i =>
    if hi : i < w.objs.length then
      some { w with objs := w.objs.eraseIdx i,
                    releases := w.releases ++ retainIf w.objs[i].m_queue }
    else none

/-- Run a sequence of lifecycle steps. -/
def World.run (w : World) : List RefCmd → Option World
  | [] => some w
  | c :: cs =>
    match w.step c with
    | none => none
    | some w2 => w2.run cs

/-- Number of live objects currently referencing handle h. -/
def World.live (w : World) (h : Nat) : Nat :=
  w.objs.countP (fun o => o.m_queue == h)

/-- The reference-count invariant: for every non-null handle, the retains
issued so far account for every release issued plus every live object
still holding the handle. -/
def World.inv (w : World) : Prop :=
  ∀ h : Nat, h ≠ 0 → w.retains.count h = w.releases.count h + w.live h

/-! ## Helper lemmas -/

theorem countP_eraseIdx_add (p : command_queue → Bool)
    (l : List command_queue) (i : Nat) (hi : i < l.length) :
    (l.eraseIdx i).countP p + (if p l[i] then 1 else 0) = l.countP p := by
  induction l generalizing i with
  | nil => simp at hi
  | cons b t ih =>
    cases i with
    | zero =>
      simp only [List.eraseIdx, List.countP_cons, List.getElem_cons_zero]
    | succ m =>
      have hm : m < t.length := by simpa using hi
      simp only [List.eraseIdx, List.countP_cons, List.getElem_cons_succ]
      have := ih m hm
      omega

theorem countP_set_add (p : command_queue → Bool) (l : List command_queue)
    (i : Nat) (a : command_queue) (hi : i < l.length) :
    (l.set i a).countP p + (if p l[i] then 1 else 0) =
      l.countP p + (if p a then 1 else 0) := by
  have h1 := List.countP_set p l i a hi
  have h2 := List.boole_getElem_le_countP p l i hi
  omega

theorem count_retainIf (h x : Nat) (hx : x ≠ 0) :
    (retainIf h).count x = if h = x then 1 else 0 := by
  unfold retainIf
  by_cases hhx : h = x
  · subst hhx
    simp [hx, List.count_singleton]
  · by_cases h0 : h = 0
    · subst h0
      simp [Ne.symm hx]
    · simp [h0, hhx, List.count_singleton]

/-- Every lifecycle step preserves the reference-count invariant. -/
theorem World.step_inv {w w2 : World} {c : RefCmd} (hw : w.inv)
    (hs : w.step c = some w2) : w2.inv := by
  intro h hh
  have hwh := hw h hh
  cases c with
  | createNull =>
    simp only [World.step, Option.some.injEq] at hs
    subst hs
    simp only [World.live, List.countP_append, List.countP_cons,
      List.countP_nil, command_queue.null]
    have hz : ((0 : Nat) == h) = false := beq_eq_false_iff_ne.mpr (Ne.symm hh)
    simp only [hz, World.live] at *
    simpa using hwh
  | adoptRetain h0 =>
    simp only [World.step, Option.some.injEq] at hs
    subst hs
    have hfr : (command_queue.fromRaw h0 true).2 = retainIf h0 := by
      simp [command_queue.fromRaw, retainIf]
    have hfr1 : (command_queue.fromRaw h0 true).1.m_queue = h0 := rfl
    simp only [World.live, hfr, hfr1, List.count_append,
      List.countP_append, List.countP_cons, List.countP_nil] at hwh ⊢
    rw [count_retainIf _ _ hh]
    simp only [beq_iff_eq]
    by_cases h0h : h0 = h
    · subst h0h
      simp only [eq_self_iff_true, if_true]
      omega
    · simp only [h0h, if_false]
      omega
  | copyCtor i =>
    simp only [World.step] at hs
    split at hs
    next hi =>
      injection hs with hs
      subst hs
      simp only [World.live, List.countP_append, List.countP_cons,
        List.countP_nil, List.count_append] at hwh ⊢
      rw [count_retainIf _ _ hh]
      by_cases hq : (w.objs[i]).m_queue = h
      · simp [hq]
        omega
      · have hb : ((w.objs[i]).m_queue == h) = false :=
          beq_eq_false_iff_ne.mpr hq
        simp [hq, hb]
        omega
    next => exact absurd hs (by simp)
  | copyAssign t s =>
    simp only [World.step] at hs
    by_cases hts : t = s
    · rw [if_pos hts] at hs
      split at hs
      next =>
        injection hs with hs
        subst hs
        exact hwh
      next => exact absurd hs (by simp)
    · rw [if_neg hts] at hs
      split at hs
      next ht =>
        split at hs
        next hsl =>
          injection hs with hs
          subst hs
          simp only [World.live, List.count_append] at hwh ⊢
          rw [count_retainIf _ _ hh, count_retainIf _ _ hh]
          have hset := countP_set_add (fun o => o.m_queue == h) w.objs t
            (w.objs[s]) ht
          simp only [beq_iff_eq] at hset
          by_cases h1 : (w.objs[s]).m_queue = h <;>
            by_cases h2 : (w.objs[t]).m_queue = h <;>
            simp only [h1, h2, eq_self_iff_true, if_true, if_false] at hset ⊢ <;>
            omega
        next => exact absurd hs (by simp)
      next => exact absurd hs (by simp)
  | moveCtor i =>
    simp only [World.step] at hs
    split at hs
    next hi =>
      injection hs with hs
      subst hs
      simp only [World.live, List.countP_append, List.countP_cons,
        List.countP_nil] at hwh ⊢
      have hset := countP_set_add (fun o => o.m_queue == h) w.objs i
        (⟨0, 0⟩ : command_queue) hi
      simp only [beq_iff_eq] at hset
      simp only [beq_iff_eq, Ne.symm hh, if_false] at hset ⊢
      by_cases h1 : (w.objs[i]).m_queue = h <;>
        simp only [h1, eq_self_iff_true, if_true, if_false] at hset ⊢ <;>
        omega
    next => exact absurd hs (by simp)
  | moveAssign t s =>
    simp only [World.step] at hs
    by_cases hts : t = s
    · rw [if_pos hts] at hs
      split at hs
      next ht =>
        injection hs with hs
        subst hs
        simp only [World.live, List.count_append] at hwh ⊢
        rw [count_retainIf _ _ hh]
        have hset := countP_set_add (fun o => o.m_queue == h) w.objs t
          (⟨0, (w.objs[t]).m_version⟩ : command_queue) ht
        simp only [beq_iff_eq, Ne.symm hh, if_false] at hset
        by_cases h1 : (w.objs[t]).m_queue = h <;>
          simp only [h1, eq_self_iff_true, if_true, if_false] at hset ⊢ <;>
          omega
      next => exact absurd hs (by simp)
    · rw [if_neg hts] at hs
      split at hs
      next ht =>
        split at hs
        next hsl =>
          injection hs with hs
          subst hs
          simp only [World.live, List.count_append] at hwh ⊢
          rw [count_retainIf _ _ hh]
          have hs2 : s < (w.objs.set t (w.objs[s])).length := by
            simpa using hsl
          have hset1 := countP_set_add (fun o => o.m_queue == h) w.objs t
            (w.objs[s]) ht
          have hset2 := countP_set_add (fun o => o.m_queue == h)
            (w.objs.set t (w.objs[s])) s
            (⟨0, (w.objs[s]).m_version⟩ : command_queue) hs2
          have hgets : (w.objs.set t (w.objs[s]))[s] = w.objs[s] :=
            List.getElem_set_ne hts hs2
          rw [hgets] at hset2
          simp only [beq_iff_eq, Ne.symm hh, if_false] at hset1 hset2
          by_cases h1 : (w.objs[s]).m_queue = h <;>
            by_cases h2 : (w.objs[t]).m_queue = h <;>
            simp only [h1, h2, eq_self_iff_true, if_true, if_false] at hset1 hset2 ⊢ <;>
            omega
        next => exact absurd hs (by simp)
      next => exact absurd hs (by simp)
  | destroy i =>
    simp only [World.step] at hs
    split at hs
    next hi =>
      injection hs with hs
      subst hs
      simp only [World.live, List.count_append] at hwh ⊢
      rw [count_retainIf _ _ hh]
      have hdel := countP_eraseIdx_add (fun o => o.m_queue == h) w.objs i hi
      simp only [beq_iff_eq] at hdel
      by_cases h1 : (w.objs[i]).m_queue = h <;>
        simp only [h1, eq_self_iff_true, if_true, if_false] at hdel ⊢ <;>
        omega
    next => exact absurd hs (by simp)

/-- Running any sequence of lifecycle steps preserves the invariant. -/
theorem World.run_inv {w w2 : World} {cs : List RefCmd} (hw : w.inv)
    (hr : w.run cs = some w2) : w2.inv := by
  induction cs generalizing w with
  | nil =>
    simp only [World.run, Option.some.injEq] at hr
    subst hr
    exact hw
  | cons c cs ih =>
    simp only [World.run] at hr
    cases hstep : w.step c with
    | none => rw [hstep] at hr; exact absurd hr (by simp)
    | some w1 =>
      rw [hstep] at hr
      exact ih (World.step_inv hw hstep) hr

/-! ## Claim theorems -/

/-- C1: every version-gated enqueue operation (rectangular buffer
read/write/copy at minimum version 110; buffer fill, image fill and
memory-object migration at minimum 120; every shared-virtual-memory
operation at minimum 200), invoked on a queue whose resolved capability
version is below the operation's minimum, fails immediately with the
capability error opencl_error(CL_INVALID_DEVICE) — raised before any
backend operation error could arise — and the backend call trace is
empty. -/
theorem C1_version_gates :
    (∀ (q : command_queue) (devVer : Nat) (buf : buffer) (qCtx : Nat)
        (bo ho rg : Size3) (brp bsp hrp hsp hp n : Nat) (slot : Bool)
        (B : Backend), q.m_queue ≠ 0 → buf.ctx = qCtx → hp ≠ 0 →
      (get_version q.m_version devVer).value < 110 →
      enqueue_read_buffer_rect q devVer buf qCtx bo ho rg brp bsp hrp hsp hp
          n slot B = some ([], Except.error CL_INVALID_DEVICE)) ∧
    (∀ (q : command_queue) (devVer : Nat) (buf : buffer) (qCtx : Nat)
        (bo ho rg : Size3) (brp bsp hrp hsp hp n : Nat) (slot : Bool)
        (B : Backend), q.m_queue ≠ 0 → buf.ctx = qCtx → hp ≠ 0 →
      (get_version q.m_version devVer).value < 110 →
      enqueue_write_buffer_rect q devVer buf qCtx bo ho rg brp bsp hrp hsp hp
          n slot B = some ([], Except.error CL_INVALID_DEVICE)) ∧
    (∀ (q : command_queue) (devVer : Nat) (src dst : buffer) (qCtx : Nat)
        (so dor rg : Size3) (brp bsp hrp hsp n : Nat) (slot : Bool)
        (B : Backend), q.m_queue ≠ 0 → src.ctx = qCtx → dst.ctx = qCtx →
      (get_version q.m_version devVer).value < 110 →
      enqueue_copy_buffer_rect q devVer src dst qCtx so dor rg brp bsp hrp hsp
          n slot B = some ([], Except.error CL_INVALID_DEVICE)) ∧
    (∀ (q : command_queue) (devVer : Nat) (buf : buffer)
        (qCtx pat patSize offset size n : Nat) (slot : Bool) (B : Backend),
      q.m_queue ≠ 0 → offset + size ≤ buf.size → buf.ctx = qCtx →
      (get_version q.m_version devVer).value < 120 →
      enqueue_fill_buffer q devVer buf qCtx pat patSize offset size n slot B =
        some ([], Except.error CL_INVALID_DEVICE)) ∧
    (∀ (q : command_queue) (devVer : Nat) (img : image_object)
        (qCtx fc : Nat) (o r : Size3) (n : Nat) (slot : Bool) (B : Backend),
      (get_version q.m_version devVer).value < 120 →
      enqueue_fill_image q devVer img qCtx fc o r n slot B =
        some ([], Except.error CL_INVALID_DEVICE)) ∧
    (∀ (q : command_queue) (devVer nmo mo fl n : Nat) (slot : Bool)
        (B : Backend), q.m_queue ≠ 0 →
      (get_version q.m_version devVer).value < 120 →
      enqueue_migrate_memory_objects q devVer nmo mo fl n slot B =
        some ([], Except.error CL_INVALID_DEVICE)) ∧
    (∀ (q : command_queue) (devVer dp sp sz n : Nat) (slot : Bool)
        (B : Backend), (get_version q.m_version devVer).value < 200 →
      enqueue_svm_memcpy q devVer dp sp sz n slot B =
        some ([], Except.error CL_INVALID_DEVICE)) ∧
    (∀ (q : command_queue) (devVer sv pat ps sz n : Nat) (slot : Bool)
        (B : Backend), (get_version q.m_version devVer).value < 200 →
      enqueue_svm_fill q devVer sv pat ps sz n slot B =
        some ([], Except.error CL_INVALID_DEVICE)) ∧
    (∀ (q : command_queue) (devVer sv n : Nat) (slot : Bool) (B : Backend),
      (get_version q.m_version devVer).value < 200 →
      enqueue_svm_free q devVer sv n slot B =
        some ([], Except.error CL_INVALID_DEVICE)) ∧
    (∀ (q : command_queue) (devVer sv sz fl n : Nat) (slot : Bool)
        (B : Backend), (get_version q.m_version devVer).value < 200 →
      enqueue_svm_map q devVer sv sz fl n slot B =
        some ([], Except.error CL_INVALID_DEVICE)) ∧
    (∀ (q : command_queue) (devVer sv n : Nat) (slot : Bool) (B : Backend),
      (get_version q.m_version devVer).value < 200 →
      enqueue_svm_unmap q devVer sv n slot B =
        some ([], Except.error CL_INVALID_DEVICE)) := by
  refine ⟨?_, ?_, ?_, ?_, ?_, ?_, ?_, ?_, ?_, ?_, ?_⟩
  · intro q devVer buf qCtx bo ho rg brp bsp hrp hsp hp n slot B hq hctx hhp hv
    simp [enqueue_read_buffer_rect, hq, hctx, hhp, hv]
  · intro q devVer buf qCtx bo ho rg brp bsp hrp hsp hp n slot B hq hctx hhp hv
    simp [enqueue_write_buffer_rect, hq, hctx, hhp, hv]
  · intro q devVer src dst qCtx so dor rg brp bsp hrp hsp n slot B hq hsc hdc hv
    simp [enqueue_copy_buffer_rect, hq, hsc, hdc, hv]
  · intro q devVer buf qCtx pat patSize offset size n slot B hq hsz hctx hv
    simp [enqueue_fill_buffer, hq, hsz, hctx, hv]
  · intro q devVer img qCtx fc o r n slot B hv
    simp [enqueue_fill_image, hv]
  · intro q devVer nmo mo fl n slot B hq hv
    simp [enqueue_migrate_memory_objects, hq, hv]
  · intro q devVer dp sp sz n slot B hv
    simp [enqueue_svm_memcpy, hv]
  · intro q devVer sv pat ps sz n slot B hv
    simp [enqueue_svm_fill, hv]
  · intro q devVer sv n slot B hv
    simp [enqueue_svm_free, hv]
  · intro q devVer sv sz fl n slot B hv
    simp [enqueue_svm_map, hv]
  · intro q devVer sv n slot B hv
    simp [enqueue_svm_unmap, hv]

/-- C1 witness: each version-gated operation, invoked at a concrete
input on a queue with resolved version 100, fails with
CL_INVALID_DEVICE and an empty trace. -/
theorem C1_version_gates_witness :
    enqueue_read_buffer_rect ⟨1, 100⟩ 0 ⟨2, 10, 7⟩ 7 ⟨0, 0, 0⟩ ⟨0, 0, 0⟩
        ⟨1, 1, 1⟩ 0 0 0 0 5 3 false okBackend =
      some ([], Except.error CL_INVALID_DEVICE) ∧
    enqueue_write_buffer_rect ⟨1, 100⟩ 0 ⟨2, 10, 7⟩ 7 ⟨0, 0, 0⟩ ⟨0, 0, 0⟩
        ⟨1, 1, 1⟩ 0 0 0 0 5 3 false okBackend =
      some ([], Except.error CL_INVALID_DEVICE) ∧
    enqueue_copy_buffer_rect ⟨1, 100⟩ 0 ⟨2, 10, 7⟩ ⟨3, 10, 7⟩ 7 ⟨0, 0, 0⟩
        ⟨0, 0, 0⟩ ⟨1, 1, 1⟩ 0 0 0 0 3 false okBackend =
      some ([], Except.error CL_INVALID_DEVICE) ∧
    enqueue_fill_buffer ⟨1, 100⟩ 0 ⟨2, 10, 7⟩ 7 9 1 0 10 3 false okBackend =
      some ([], Except.error CL_INVALID_DEVICE) ∧
    enqueue_fill_image ⟨1, 100⟩ 0 ⟨3, 7, 4, 2, 1, 4⟩ 7 9 ⟨0, 0, 0⟩ ⟨1, 1, 1⟩
        3 false okBackend = some ([], Except.error CL_INVALID_DEVICE) ∧
    enqueue_migrate_memory_objects ⟨1, 100⟩ 0 1 9 0 3 false okBackend =
      some ([], Except.error CL_INVALID_DEVICE) ∧
    enqueue_svm_memcpy ⟨1, 100⟩ 0 4 5 16 3 false okBackend =
      some ([], Except.error CL_INVALID_DEVICE) ∧
    enqueue_svm_fill ⟨1, 100⟩ 0 4 9 1 16 3 false okBackend =
      some ([], Except.error CL_INVALID_DEVICE) ∧
    enqueue_svm_free ⟨1, 100⟩ 0 4 3 false okBackend =
      some ([], Except.error CL_INVALID_DEVICE) ∧
    enqueue_svm_map ⟨1, 100⟩ 0 4 16 0 3 false okBackend =
      some ([], Except.error CL_INVALID_DEVICE) ∧
    enqueue_svm_unmap ⟨1, 100⟩ 0 4 3 false okBackend =
      some ([], Except.error CL_INVALID_DEVICE) :=
  ⟨C1_version_gates.1 _ _ _ _ _ _ _ _ _ _ _ _ _ _ _
      (by decide) (by decide) (by decide) (by decide),
   C1_version_gates.2.1 _ _ _ _ _ _ _ _ _ _ _ _ _ _ _
      (by decide) (by decide) (by decide) (by decide),
   C1_version_gates.2.2.1 _ _ _ _ _ _ _ _ _ _ _ _ _ _ _
      (by decide) (by decide) (by decide) (by decide),
   C1_version_gates.2.2.2.1 _ _ _ _ _ _ _ _ _ _ _
      (by decide) (by decide) (by decide) (by decide),
   C1_version_gates.2.2.2.2.1 _ _ _ _ _ _ _ _ _ _ (by decide),
   C1_version_gates.2.2.2.2.2.1 _ _ _ _ _ _ _ _ (by decide) (by decide),
   C1_version_gates.2.2.2.2.2.2.1 _ _ _ _ _ _ _ _ (by decide),
   C1_version_gates.2.2.2.2.2.2.2.1 _ _ _ _ _ _ _ _ _ (by decide),
   C1_version_gates.2.2.2.2.2.2.2.2.1 _ _ _ _ _ _ (by decide),
   C1_version_gates.2.2.2.2.2.2.2.2.2.1 _ _ _ _ _ _ _ _ (by decide),
   C1_version_gates.2.2.2.2.2.2.2.2.2.2 _ _ _ _ _ _ (by decide)⟩

/-- C2 evaluation at the failing input: for origin {1,0,0} and region
{2,1,1} the walk loops (which run each counter from origin up to, but
excluding, the region value) invoke the per-element function exactly
once — at coordinates (1,0,0) and the mapped base address — although the
region holds 2·1·1 = 2 elements; with the origin left at its {0,0,0}
default the same region yields all 2 invocations. -/
theorem C2_walk_region_bound_eval :
    enqueue_walk_image ⟨1, 7, 4, 1, 1, 4⟩ (some ⟨1, 0, 0⟩) (some ⟨2, 1, 1⟩)
        100 32 64 = (⟨1, 0, 0⟩, ⟨2, 1, 1⟩, [(100, 1, 0, 0)]) ∧
    (enqueue_walk_image ⟨1, 7, 4, 1, 1, 4⟩ (some ⟨1, 0, 0⟩) (some ⟨2, 1, 1⟩)
        100 32 64).2.2.length ≠
      (⟨2, 1, 1⟩ : Size3).x * (⟨2, 1, 1⟩ : Size3).y * (⟨2, 1, 1⟩ : Size3).z ∧
    (enqueue_walk_image ⟨1, 7, 4, 1, 1, 4⟩ none (some ⟨2, 1, 1⟩)
        100 32 64).2.2 = [(100, 0, 0, 0), (104, 1, 0, 0)] := by
  exact ⟨by decide, by decide, by decide⟩

/-- C3: when enqueue_walk_image (and the raw image fill built on it)
receives null origin and region pointers, the origin defaults to {0,0,0}
and the region defaults to the image's full extent, height and depth
falling back to 1 when the image lacks that dimension. -/
theorem C3_walk_defaults :
    (∀ (img : image_object) (base rp sp : Nat),
      (enqueue_walk_image img none none base rp sp).1 = ⟨0, 0, 0⟩) ∧
    (∀ (img : image_object) (base rp sp : Nat),
      (enqueue_walk_image img none none base rp sp).2.1 =
        ⟨img.width, max 1 img.height, max 1 img.depth⟩) ∧
    (∀ img : image_object, img.height = 0 →
      (walk_image_region3 img none).y = 1) ∧
    (∀ img : image_object, img.height ≠ 0 →
      (walk_image_region3 img none).y = img.height) ∧
    (∀ img : image_object, img.depth = 0 →
      (walk_image_region3 img none).z = 1) ∧
    (∀ img : image_object, img.depth ≠ 0 →
      (walk_image_region3 img none).z = img.depth) ∧
    (∀ (img : image_object) (origin region : Option Size3) (base rp sp : Nat),
      enqueue_rawfill_image_walking img origin region base rp sp =
        enqueue_walk_image img origin region base rp sp) := by
  refine ⟨fun img base rp sp => rfl, fun img base rp sp => rfl,
    ?_, ?_, ?_, ?_, fun img origin region base rp sp => rfl⟩
  · intro img h
    simp [walk_image_region3, h]
  · intro img h
    simp only [walk_image_region3]
    omega
  · intro img h
    simp [walk_image_region3, h]
  · intro img h
    simp only [walk_image_region3]
    omega

/-- C3 witness: for a 4-wide 1D image the defaults resolve to origin
{0,0,0} and region {4,1,1}; for a 4×2 2D image the region height is
taken from the image. -/
theorem C3_walk_defaults_witness :
    (enqueue_walk_image ⟨1, 7, 4, 0, 0, 4⟩ none none 0 16 16).1 =
      ⟨0, 0, 0⟩ ∧
    (enqueue_walk_image ⟨1, 7, 4, 0, 0, 4⟩ none none 0 16 16).2.1 =
      ⟨4, 1, 1⟩ ∧
    (walk_image_region3 ⟨1, 7, 4, 0, 0, 4⟩ none).y = 1 ∧
    (walk_image_region3 ⟨1, 7, 4, 2, 0, 4⟩ none).y = 2 ∧
    (walk_image_region3 ⟨1, 7, 4, 0, 0, 4⟩ none).z = 1 ∧
    (walk_image_region3 ⟨1, 7, 4, 2, 3, 4⟩ none).z = 3 ∧
    enqueue_rawfill_image_walking ⟨1, 7, 4, 0, 0, 4⟩ none none 0 16 16 =
      enqueue_walk_image ⟨1, 7, 4, 0, 0, 4⟩ none none 0 16 16 :=
  ⟨C3_walk_defaults.1 _ _ _ _,
   (C3_walk_defaults.2.1 ⟨1, 7, 4, 0, 0, 4⟩ 0 16 16).trans (by decide),
   C3_walk_defaults.2.2.1 _ (by decide),
   C3_walk_defaults.2.2.2.1 _ (by decide),
   C3_walk_defaults.2.2.2.2.1 _ (by decide),
   C3_walk_defaults.2.2.2.2.2.1 _ (by decide),
   C3_walk_defaults.2.2.2.2.2.2 _ _ _ _ _ _⟩

/-- C8: a queue constructed null or adopted from a raw native id starts
with cached version 0; get_version queries the device only when the
cache is 0, stores the result, and (whenever the device reports a
non-zero version, as every real major*100+minor version is) every later
call returns the stored value without querying again. -/
theorem C8_version_memoization :
    command_queue.null.m_version = 0 ∧
    (∀ (h : Nat) (r : Bool), (command_queue.fromRaw h r).1.m_version = 0) ∧
    (∀ c d : Nat, c ≠ 0 → get_version c d = ⟨c, c, false⟩) ∧
    (∀ d : Nat, get_version 0 d = ⟨d, d, true⟩) ∧
    (∀ c d : Nat, d ≠ 0 →
      get_version (get_version c d).cache d =
        ⟨(get_version c d).value, (get_version c d).value, false⟩) := by
  refine ⟨rfl, fun h r => rfl, ?_, fun d => rfl, ?_⟩
  · intro c d hc
    simp [get_version, hc]
  · intro c d hd
    by_cases hc : c = 0 <;> simp [get_version, hc, hd]

/-- C8 witness: a cache of 5 is returned as-is without a query; an
unknown cache resolves to the device version 9 and the second call
returns 9 from the cache without querying. -/
theorem C8_version_memoization_witness :
    command_queue.null.m_version = 0 ∧
    (command_queue.fromRaw 6 true).1.m_version = 0 ∧
    get_version 5 7 = ⟨5, 5, false⟩ ∧
    get_version 0 9 = ⟨9, 9, true⟩ ∧
    get_version (get_version 0 9).cache 9 = ⟨9, 9, false⟩ :=
  ⟨C8_version_memoization.1,
   C8_version_memoization.2.1 6 true,
   C8_version_memoization.2.2.1 5 7 (by decide),
   C8_version_memoization.2.2.2.1 9,
   (C8_version_memoization.2.2.2.2 0 9 (by decide)).trans (by decide)⟩

/-- C9: copy-assigning a command_queue object to itself (the `this !=
&other` guard) leaves the world unchanged: the object's native id and
cached version are untouched and no retain or release call is logged. -/
theorem C9_self_copy_assign :
    ∀ (w : World) (i : Nat), i < w.objs.length →
      w.step (RefCmd.copyAssign i i) = some w := by
  intro w i hi
  simp [World.step, hi]

/-- C9 witness: self copy-assignment on a world with one live object. -/
theorem C9_self_copy_assign_witness :
    World.step ⟨[⟨5, 2⟩], [5], []⟩ (RefCmd.copyAssign 0 0) =
      some ⟨[⟨5, 2⟩], [5], []⟩ :=
  C9_self_copy_assign ⟨[⟨5, 2⟩], [5], []⟩ 0 (by decide)

/-- C10: on a queue with resolved version at least 200, enqueue_task
submits exactly what an N-dimensional range dispatch with work dimension
1, null global offset, and global and local work sizes [1] submits; below
200 it issues the legacy clEnqueueTask call; and (through the shared
checked-submission tail) both paths raise the backend's status as an
error on non-success. -/
theorem C10_task_dispatch :
    (∀ (q : command_queue) (devVer : Nat) (kern : kernel) (qCtx n : Nat)
        (slot : Bool) (B : Backend),
      200 ≤ (get_version q.m_version devVer).value →
      enqueue_task q devVer kern qCtx n slot B =
        enqueue_nd_range_kernel q kern qCtx 1 none (some [1]) (some [1])
          n slot B) ∧
    (∀ (q : command_queue) (devVer : Nat) (kern : kernel) (qCtx n : Nat)
        (slot : Bool) (B : Backend),
      (get_version q.m_version devVer).value < 200 →
      q.m_queue ≠ 0 → kern.ctx = qCtx →
      enqueue_task q devVer kern qCtx n slot B =
        some (submit B (ClCall.task q.m_queue kern.id n slot) slot)) ∧
    (∀ (B : Backend) (c : ClCall) (slot : Bool),
      B.status c ≠ CL_SUCCESS →
      submit B c slot = ([c], Except.error (B.status c))) := by
  refine ⟨?_, ?_, ?_⟩
  · intro q devVer kern qCtx n slot B hv
    by_cases h1 : q.m_queue = 0 <;> by_cases h2 : kern.ctx = qCtx <;>
      simp [enqueue_task, enqueue_nd_range_kernel, h1, h2, ge_iff_le, hv]
  · intro q devVer kern qCtx n slot B hv hq hctx
    simp [enqueue_task, hq, hctx, ge_iff_le, Nat.not_le.mpr hv]
  · intro B c slot hst
    simp [submit, hst]

/-- C10 witness: on a version-210 queue the task call coincides with the
1×1 ND-range dispatch; on a version-150 queue it is the legacy task
call; a backend status of -5 is raised as the error -5. -/
theorem C10_task_dispatch_witness :
    enqueue_task ⟨1, 210⟩ 0 ⟨4, 7⟩ 7 2 false okBackend =
      enqueue_nd_range_kernel ⟨1, 210⟩ ⟨4, 7⟩ 7 1 none (some [1]) (some [1])
        2 false okBackend ∧
    enqueue_task ⟨1, 150⟩ 0 ⟨4, 7⟩ 7 2 false okBackend =
      some (submit okBackend (ClCall.task 1 4 2 false) false) ∧
    submit (failBackend (-5)) (ClCall.task 1 4 2 false) false =
      ([ClCall.task 1 4 2 false], Except.error (-5)) :=
  ⟨C10_task_dispatch.1 _ _ _ _ _ _ _ (by decide),
   C10_task_dispatch.2.1 _ _ _ _ _ _ _ (by decide) (by decide) (by decide),
   C10_task_dispatch.2.2 (failBackend (-5)) (ClCall.task 1 4 2 false) false
      (by decide)⟩

/-- C5: characterization of the precondition assertions of the
synchronous buffer read, write and copy.  Read and write check the queue
handle, `size <= buffer.size()` (the offset does not participate in the
bound check), the context match, and the host pointer; copy checks the
queue handle, `src_offset + size` and `dst_offset + size` against the
respective buffer sizes, and both contexts.  An operation reaches the
backend (isSome) exactly when its assertions hold; otherwise it aborts
before any backend submission. -/
theorem C5_buffer_preconditions :
    (∀ (q : command_queue) (buf : buffer) (qCtx offset size hp n : Nat)
        (slot : Bool) (B : Backend),
      (enqueue_read_buffer q buf qCtx offset size hp n slot B).isSome ↔
        (q.m_queue ≠ 0 ∧ size ≤ buf.size ∧ buf.ctx = qCtx ∧ hp ≠ 0)) ∧
    (∀ (q : command_queue) (buf : buffer) (qCtx offset size hp n : Nat)
        (slot : Bool) (B : Backend),
      (enqueue_write_buffer q buf qCtx offset size hp n slot B).isSome ↔
        (q.m_queue ≠ 0 ∧ size ≤ buf.size ∧ buf.ctx = qCtx ∧ hp ≠ 0)) ∧
    (∀ (q : command_queue) (src dst : buffer) (qCtx sOff dOff size n : Nat)
        (slot : Bool) (B : Backend),
      (enqueue_copy_buffer q src dst qCtx sOff dOff size n slot B).isSome ↔
        (q.m_queue ≠ 0 ∧ sOff + size ≤ src.size ∧ dOff + size ≤ dst.size ∧
          src.ctx = qCtx ∧ dst.ctx = qCtx)) := by
  refine ⟨?_, ?_, ?_⟩
  · intro q buf qCtx offset size hp n slot B
    unfold enqueue_read_buffer
    split_ifs with h1 h2 h3 h4 <;> simp_all
  · intro q buf qCtx offset size hp n slot B
    unfold enqueue_write_buffer
    split_ifs with h1 h2 h3 h4 <;> simp_all
  · intro q src dst qCtx sOff dOff size n slot B
    unfold enqueue_copy_buffer
    split_ifs with h1 h2 h3 h4 h5 <;> simp_all

/-- C5 witness: a read whose assertions all hold reaches the backend. -/
theorem C5_buffer_preconditions_witness :
    (enqueue_read_buffer ⟨1, 100⟩ ⟨2, 8, 7⟩ 7 0 4 5 0 false
        okBackend).isSome ∧
    (enqueue_write_buffer ⟨1, 100⟩ ⟨2, 8, 7⟩ 7 0 4 5 0 false
        okBackend).isSome ∧
    (enqueue_copy_buffer ⟨1, 100⟩ ⟨2, 8, 7⟩ ⟨3, 8, 7⟩ 7 2 2 4 0 false
        okBackend).isSome :=
  ⟨(C5_buffer_preconditions.1 _ _ _ _ _ _ _ _ _).mpr (by decide),
   (C5_buffer_preconditions.2.1 _ _ _ _ _ _ _ _ _).mpr (by decide),
   (C5_buffer_preconditions.2.2 _ _ _ _ _ _ _ _ _ _).mpr (by decide)⟩

/-- C5 counterexample: with offset 1 and size 4 on a 4-byte buffer the
numeric range offset+size exceeds the buffer size, yet the read passes
its assertions and submits the backend call — the claimed
`offset + size <= buffer.size()` check is not what read or write
assert (they assert only `size <= buffer.size()`). -/
theorem C5_buffer_preconditions_counterexample :
    enqueue_read_buffer ⟨1, 100⟩ ⟨2, 4, 7⟩ 7 1 4 5 0 false okBackend =
      some ([ClCall.readBuffer 1 2 true 1 4 5 0 false], Except.ok none) ∧
    ¬ (1 + 4 ≤ 4) :=
  ⟨rfl, by decide⟩

/-- C7: each _async enqueue variant forwards to its synchronous variant
with an event-capturing slot supplied and returns the slot's event; for
entry points with a blocking flag the flag is set exactly when no event
slot is supplied; a successful checked submission with a slot yields the
backend's produced event. -/
theorem C7_async_variants :
    (∀ (q : command_queue) (buf : buffer) (qCtx o s hp n : Nat)
        (B : Backend),
      enqueue_read_buffer_async q buf qCtx o s hp n B =
        enqueue_read_buffer q buf qCtx o s hp n true B) ∧
    (∀ (q : command_queue) (buf : buffer) (qCtx o s hp n : Nat)
        (B : Backend),
      enqueue_write_buffer_async q buf qCtx o s hp n B =
        enqueue_write_buffer q buf qCtx o s hp n true B) ∧
    (∀ (q : command_queue) (src dst : buffer) (qCtx sOff dOff sz n : Nat)
        (B : Backend),
      enqueue_copy_buffer_async q src dst qCtx sOff dOff sz n B =
        enqueue_copy_buffer q src dst qCtx sOff dOff sz n true B) ∧
    (∀ (q : command_queue) (devVer : Nat) (buf : buffer)
        (qCtx pat ps o sz n : Nat) (B : Backend),
      enqueue_fill_buffer_async q devVer buf qCtx pat ps o sz n B =
        enqueue_fill_buffer q devVer buf qCtx pat ps o sz n true B) ∧
    (∀ (q : command_queue) (kern : kernel) (qCtx wd : Nat)
        (gwo gws lws : Option (List Nat)) (n : Nat) (B : Backend),
      enqueue_nd_range_kernel_async q kern qCtx wd gwo gws lws n B =
        enqueue_nd_range_kernel q kern qCtx wd gwo gws lws n true B) ∧
    (∀ (q : command_queue) (kern : kernel) (qCtx gwo gws lws n : Nat)
        (B : Backend),
      enqueue_1d_range_kernel_async q kern qCtx gwo gws lws n B =
        enqueue_1d_range_kernel q kern qCtx gwo gws lws n true B) ∧
    (∀ (q : command_queue) (devVer dp sp sz n : Nat) (B : Backend),
      enqueue_svm_memcpy_async q devVer dp sp sz n B =
        enqueue_svm_memcpy q devVer dp sp sz n true B) ∧
    (∀ (q : command_queue) (buf : buffer) (qCtx o s hp n : Nat)
        (slot : Bool) (B : Backend), q.m_queue ≠ 0 → s ≤ buf.size →
      buf.ctx = qCtx → hp ≠ 0 →
      ∃ c : ClCall, enqueue_read_buffer q buf qCtx o s hp n slot B =
          some (submit B c slot) ∧ c.blockingFlag = some (!slot)) ∧
    (∀ (q : command_queue) (buf : buffer) (qCtx o s hp n : Nat)
        (slot : Bool) (B : Backend), q.m_queue ≠ 0 → s ≤ buf.size →
      buf.ctx = qCtx → hp ≠ 0 →
      ∃ c : ClCall, enqueue_write_buffer q buf qCtx o s hp n slot B =
          some (submit B c slot) ∧ c.blockingFlag = some (!slot)) ∧
    (∀ (q : command_queue) (devVer dp sp sz n : Nat) (slot : Bool)
        (B : Backend), 200 ≤ (get_version q.m_version devVer).value →
      ∃ c : ClCall, enqueue_svm_memcpy q devVer dp sp sz n slot B =
          some (submit B c slot) ∧ c.blockingFlag = some (!slot)) ∧
    (∀ (B : Backend) (c : ClCall), B.status c = CL_SUCCESS →
      submit B c true = ([c], Except.ok (some (B.newEvent c)))) := by
  refine ⟨fun q buf qCtx o s hp n B => rfl, fun q buf qCtx o s hp n B => rfl,
    fun q src dst qCtx sOff dOff sz n B => rfl,
    fun q devVer buf qCtx pat ps o sz n B => rfl,
    fun q kern qCtx wd gwo gws lws n B => rfl,
    fun q kern qCtx gwo gws lws n B => rfl,
    fun q devVer dp sp sz n B => rfl, ?_, ?_, ?_, ?_⟩
  · intro q buf qCtx o s hp n slot B hq hsz hctx hhp
    exact ⟨ClCall.readBuffer q.m_queue buf.id (!slot) o s hp n slot,
      by simp [enqueue_read_buffer, hq, hsz, hctx, hhp], rfl⟩
  · intro q buf qCtx o s hp n slot B hq hsz hctx hhp
    exact ⟨ClCall.writeBuffer q.m_queue buf.id (!slot) o s hp n slot,
      by simp [enqueue_write_buffer, hq, hsz, hctx, hhp], rfl⟩
  · intro q devVer dp sp sz n slot B hv
    exact ⟨ClCall.svmMemcpy q.m_queue (!slot) dp sp sz n slot,
      by simp [enqueue_svm_memcpy, Nat.not_lt.mpr hv], rfl⟩
  · intro B c hst
    simp [submit, hst]

/-- C7 witness: at concrete inputs, the async read coincides with the
slot-supplied synchronous read, the emitted read call is non-blocking
exactly because a slot was supplied, and a successful submission returns
the backend's event. -/
theorem C7_async_variants_witness :
    (enqueue_read_buffer_async ⟨1, 100⟩ ⟨2, 8, 7⟩ 7 0 4 5 0 okBackend =
      enqueue_read_buffer ⟨1, 100⟩ ⟨2, 8, 7⟩ 7 0 4 5 0 true okBackend) ∧
    (∃ c : ClCall,
      enqueue_read_buffer ⟨1, 100⟩ ⟨2, 8, 7⟩ 7 0 4 5 0 true okBackend =
        some (submit okBackend c true) ∧ c.blockingFlag = some false) ∧
    (∃ c : ClCall,
      enqueue_svm_memcpy ⟨1, 210⟩ 0 4 5 16 0 true okBackend =
        some (submit okBackend c true) ∧ c.blockingFlag = some false) ∧
    submit okBackend (ClCall.barrierWithWaitList 1 0 true) true =
      ([ClCall.barrierWithWaitList 1 0 true], Except.ok (some 0)) :=
  ⟨C7_async_variants.1 _ _ _ _ _ _ _ _,
   C7_async_variants.2.2.2.2.2.2.2.1 _ _ _ _ _ _ _ true _
      (by decide) (by decide) (by decide) (by decide),
   C7_async_variants.2.2.2.2.2.2.2.2.2.1 _ _ _ _ _ _ true _ (by decide),
   C7_async_variants.2.2.2.2.2.2.2.2.2.2 okBackend
      (ClCall.barrierWithWaitList 1 0 true) (by decide)⟩

/-- C6: copy construction and non-self copy assignment retain a non-null
handle exactly once; move construction and move assignment transfer the
native id without retaining and leave the source handle null; destruction
releases exactly once if and only if the handle is non-null; and along
any sequence of constructions, copies, moves and destructions starting
from a world satisfying the reference-count invariant, releases never
exceed retains for any non-null handle. -/
theorem C6_refcount_discipline :
    (∀ (w : World) (i : Nat) (hi : i < w.objs.length),
      (w.objs[i]).m_queue ≠ 0 →
      w.step (RefCmd.copyCtor i) =
        some { w with objs := w.objs ++ [w.objs[i]],
                      retains := w.retains ++ [(w.objs[i]).m_queue] }) ∧
    (∀ (w : World) (t s : Nat) (ht : t < w.objs.length)
        (hsl : s < w.objs.length), t ≠ s → (w.objs[s]).m_queue ≠ 0 →
      w.step (RefCmd.copyAssign t s) =
        some ⟨w.objs.set t (w.objs[s]),
              w.retains ++ [(w.objs[s]).m_queue],
              w.releases ++ retainIf (w.objs[t]).m_queue⟩) ∧
    (∀ (w : World) (i : Nat) (hi : i < w.objs.length),
      w.step (RefCmd.moveCtor i) =
        some { w with objs := (w.objs.set i ⟨0, 0⟩) ++ [w.objs[i]] }) ∧
    (∀ (w : World) (t s : Nat) (ht : t < w.objs.length)
        (hsl : s < w.objs.length), t ≠ s →
      w.step (RefCmd.moveAssign t s) =
        some { w with
          objs := (w.objs.set t (w.objs[s])).set s
            ⟨0, (w.objs[s]).m_version⟩,
          releases := w.releases ++ retainIf (w.objs[t]).m_queue }) ∧
    (∀ (w : World) (i : Nat) (hi : i < w.objs.length),
      w.step (RefCmd.destroy i) =
        some { w with objs := w.objs.eraseIdx i,
                      releases := w.releases ++ retainIf (w.objs[i]).m_queue }) ∧
    (∀ h : Nat, h ≠ 0 → retainIf h = [h]) ∧
    retainIf 0 = [] ∧
    (∀ (w w2 : World) (cs : List RefCmd), w.inv → w.run cs = some w2 →
      ∀ h : Nat, h ≠ 0 → w2.releases.count h ≤ w2.retains.count h) := by
  refine ⟨?_, ?_, ?_, ?_, ?_, ?_, rfl, ?_⟩
  · intro w i hi hq
    simp [World.step, hi, retainIf, hq]
  · intro w t s ht hsl hts hq
    simp [World.step, hts, ht, hsl, retainIf, hq]
  · intro w i hi
    simp [World.step, hi]
  · intro w t s ht hsl hts
    simp [World.step, hts, ht, hsl]
  · intro w i hi
    simp [World.step, hi]
  · intro h hh
    simp [retainIf, hh]
  · intro w w2 cs hw hr h hh
    have h2 := World.run_inv hw hr h hh
    omega

/-- C6 witness: concrete lifecycle steps on a two-object world, and a
run from the empty world (adopt, copy, move, three destructions) after
which releases equal retains for handle 5. -/
theorem C6_refcount_discipline_witness :
    World.step ⟨[⟨5, 2⟩, ⟨7, 3⟩], [5, 7], []⟩ (RefCmd.copyCtor 0) =
      some ⟨[⟨5, 2⟩, ⟨7, 3⟩, ⟨5, 2⟩], [5, 7, 5], []⟩ ∧
    World.step ⟨[⟨5, 2⟩, ⟨7, 3⟩], [5, 7], []⟩ (RefCmd.copyAssign 0 1) =
      some ⟨[⟨7, 3⟩, ⟨7, 3⟩], [5, 7, 7], [5]⟩ ∧
    World.step ⟨[⟨5, 2⟩, ⟨7, 3⟩], [5, 7], []⟩ (RefCmd.moveCtor 0) =
      some ⟨[⟨0, 0⟩, ⟨7, 3⟩, ⟨5, 2⟩], [5, 7], []⟩ ∧
    World.step ⟨[⟨5, 2⟩, ⟨7, 3⟩], [5, 7], []⟩ (RefCmd.moveAssign 0 1) =
      some ⟨[⟨7, 3⟩, ⟨0, 3⟩], [5, 7], [5]⟩ ∧
    World.step ⟨[⟨5, 2⟩, ⟨7, 3⟩], [5, 7], []⟩ (RefCmd.destroy 0) =
      some ⟨[⟨7, 3⟩], [5, 7], [5]⟩ ∧
    retainIf 5 = [5] ∧
    retainIf 0 = [] ∧
    (World.run ⟨[], [], []⟩ [RefCmd.adoptRetain 5, RefCmd.copyCtor 0,
        RefCmd.moveCtor 1, RefCmd.destroy 0, RefCmd.destroy 0,
        RefCmd.destroy 0] = some ⟨[], [5, 5], [5, 5]⟩ ∧
      (⟨[], [5, 5], [5, 5]⟩ : World).releases.count 5 ≤
        (⟨[], [5, 5], [5, 5]⟩ : World).retains.count 5) :=
  ⟨C6_refcount_discipline.1 ⟨[⟨5, 2⟩, ⟨7, 3⟩], [5, 7], []⟩ 0
      (by decide) (by decide),
   C6_refcount_discipline.2.1 ⟨[⟨5, 2⟩, ⟨7, 3⟩], [5, 7], []⟩ 0 1
      (by decide) (by decide) (by decide) (by decide),
   C6_refcount_discipline.2.2.1 ⟨[⟨5, 2⟩, ⟨7, 3⟩], [5, 7], []⟩ 0
      (by decide),
   C6_refcount_discipline.2.2.2.1 ⟨[⟨5, 2⟩, ⟨7, 3⟩], [5, 7], []⟩ 0 1
      (by decide) (by decide) (by decide),
   C6_refcount_discipline.2.2.2.2.1 ⟨[⟨5, 2⟩, ⟨7, 3⟩], [5, 7], []⟩ 0
      (by decide),
   C6_refcount_discipline.2.2.2.2.2.1 5 (by decide),
   C6_refcount_discipline.2.2.2.2.2.2.1,
   by decide,
   C6_refcount_discipline.2.2.2.2.2.2.2 ⟨[], [], []⟩ ⟨[], [5, 5], [5, 5]⟩
      [RefCmd.adoptRetain 5, RefCmd.copyCtor 0, RefCmd.moveCtor 1,
        RefCmd.destroy 0, RefCmd.destroy 0, RefCmd.destroy 0]
      (fun h hh => rfl) (by decide) 5 (by decide)⟩

/-- C4 (amended): every enqueue operation except the two barrier
overloads hands its backend call to the shared checked-submission tail,
which on a non-success status raises an opencl_error carrying exactly the
backend's status code at that call site; the two barrier overloads
instead discard the backend's status and report success regardless. -/
theorem C4_status_propagation :
    (∀ (B : Backend) (c : ClCall) (slot : Bool),
      B.status c ≠ CL_SUCCESS →
      submit B c slot = ([c], Except.error (B.status c))) ∧
    (∀ (B : Backend) (c : ClCall) (slot : Bool),
      B.status c ≠ CL_SUCCESS →
      submitMap B c slot = ([c], Except.error (B.status c))) ∧
    (∀ (q : command_queue) (buf : buffer) (qCtx o sz hp n : Nat)
        (slot : Bool) (B : Backend), q.m_queue ≠ 0 → sz ≤ buf.size →
      buf.ctx = qCtx → hp ≠ 0 →
      enqueue_read_buffer q buf qCtx o sz hp n slot B =
        some (submit B
          (ClCall.readBuffer q.m_queue buf.id (!slot) o sz hp n slot) slot)) ∧
    (∀ (q : command_queue) (devVer : Nat) (buf : buffer) (qCtx : Nat)
        (bo ho rg : Size3) (brp bsp hrp hsp hp n : Nat) (slot : Bool)
        (B : Backend), q.m_queue ≠ 0 → buf.ctx = qCtx → hp ≠ 0 →
      110 ≤ (get_version q.m_version devVer).value →
      enqueue_read_buffer_rect q devVer buf qCtx bo ho rg brp bsp hrp hsp hp
          n slot B =
        some (submit B (ClCall.readBufferRect q.m_queue buf.id (!slot) bo ho
          rg brp bsp hrp hsp hp n slot) slot)) ∧
    (∀ (q : command_queue) (buf : buffer) (qCtx o sz hp n : Nat)
        (slot : Bool) (B : Backend), q.m_queue ≠ 0 → sz ≤ buf.size →
      buf.ctx = qCtx → hp ≠ 0 →
      enqueue_write_buffer q buf qCtx o sz hp n slot B =
        some (submit B
          (ClCall.writeBuffer q.m_queue buf.id (!slot) o sz hp n slot) slot)) ∧
    (∀ (q : command_queue) (devVer : Nat) (buf : buffer) (qCtx : Nat)
        (bo ho rg : Size3) (brp bsp hrp hsp hp n : Nat) (slot : Bool)
        (B : Backend), q.m_queue ≠ 0 → buf.ctx = qCtx → hp ≠ 0 →
      110 ≤ (get_version q.m_version devVer).value →
      enqueue_write_buffer_rect q devVer buf qCtx bo ho rg brp bsp hrp hsp hp
          n slot B =
        some (submit B (ClCall.writeBufferRect q.m_queue buf.id (!slot) bo ho
          rg brp bsp hrp hsp hp n slot) slot)) ∧
    (∀ (q : command_queue) (src dst : buffer) (qCtx sOff dOff sz n : Nat)
        (slot : Bool) (B : Backend), q.m_queue ≠ 0 →
      sOff + sz ≤ src.size → dOff + sz ≤ dst.size → src.ctx = qCtx →
      dst.ctx = qCtx →
      enqueue_copy_buffer q src dst qCtx sOff dOff sz n slot B =
        some (submit B
          (ClCall.copyBuffer q.m_queue src.id dst.id sOff dOff sz n slot)
          slot)) ∧
    (∀ (q : command_queue) (devVer : Nat) (src dst : buffer) (qCtx : Nat)
        (so dor rg : Size3) (brp bsp hrp hsp n : Nat) (slot : Bool)
        (B : Backend), q.m_queue ≠ 0 → src.ctx = qCtx → dst.ctx = qCtx →
      110 ≤ (get_version q.m_version devVer).value →
      enqueue_copy_buffer_rect q devVer src dst qCtx so dor rg brp bsp hrp
          hsp n slot B =
        some (submit B (ClCall.copyBufferRect q.m_queue src.id dst.id so dor
          rg brp bsp hrp hsp n slot) slot)) ∧
    (∀ (q : command_queue) (devVer : Nat) (buf : buffer)
        (qCtx pat ps o sz n : Nat) (slot : Bool) (B : Backend),
      q.m_queue ≠ 0 → o + sz ≤ buf.size → buf.ctx = qCtx →
      120 ≤ (get_version q.m_version devVer).value →
      enqueue_fill_buffer q devVer buf qCtx pat ps o sz n slot B =
        some (submit B
          (ClCall.fillBuffer q.m_queue buf.id pat ps o sz n slot) slot)) ∧
    (∀ (q : command_queue) (buf : buffer) (qCtx fl o sz n : Nat)
        (slot : Bool) (B : Backend), q.m_queue ≠ 0 → o + sz ≤ buf.size →
      buf.ctx = qCtx →
      enqueue_map_buffer q buf qCtx fl o sz n slot B =
        some (submitMap B
          (ClCall.mapBuffer q.m_queue buf.id (!slot) fl o sz n slot) slot)) ∧
    (∀ (q : command_queue) (img : image_object) (qCtx fl : Nat)
        (o r : Size3) (n : Nat) (slot : Bool) (B : Backend),
      q.m_queue ≠ 0 → img.ctx = qCtx →
      enqueue_map_image q img qCtx fl o r n slot B =
        some (submitMap B
          (ClCall.mapImage q.m_queue img.id (!slot) fl o r n slot) slot)) ∧
    (∀ (q : command_queue) (memId memCtx qCtx mp n : Nat) (slot : Bool)
        (B : Backend), memCtx = qCtx → q.m_queue ≠ 0 →
      enqueue_unmap_buffer q memId memCtx qCtx mp n slot B =
        some (submit B
          (ClCall.unmapMemObject q.m_queue memId mp n slot) slot)) ∧
    (∀ (q : command_queue) (mem mp n : Nat) (slot : Bool) (B : Backend),
      q.m_queue ≠ 0 →
      enqueue_unmap_mem_object q mem mp n slot B =
        some (submit B
          (ClCall.unmapMemObject q.m_queue mem mp n slot) slot)) ∧
    (∀ (q : command_queue) (img : image_object) (o r : Size3)
        (rp sp2 hp n : Nat) (slot : Bool) (B : Backend), q.m_queue ≠ 0 →
      enqueue_read_image q img o r rp sp2 hp n slot B =
        some (submit B (ClCall.readImage q.m_queue img.id (!slot) o r rp sp2
          hp n slot) slot)) ∧
    (∀ (q : command_queue) (img : image_object) (o r : Size3)
        (irp isp hp n : Nat) (slot : Bool) (B : Backend), q.m_queue ≠ 0 →
      enqueue_write_image q img o r irp isp hp n slot B =
        some (submit B (ClCall.writeImage q.m_queue img.id (!slot) o r irp
          isp hp n slot) slot)) ∧
    (∀ (q : command_queue) (si di : image_object) (so dor rg : Size3)
        (n : Nat) (slot : Bool) (B : Backend), q.m_queue ≠ 0 →
      enqueue_copy_image q si di so dor rg n slot B =
        some (submit B
          (ClCall.copyImage q.m_queue si.id di.id so dor rg n slot) slot)) ∧
    (∀ (q : command_queue) (si : image_object) (db : buffer)
        (so rg : Size3) (dOff n : Nat) (slot : Bool) (B : Backend),
      q.m_queue ≠ 0 →
      enqueue_copy_image_to_buffer q si db so rg dOff n slot B =
        some (submit B (ClCall.copyImageToBuffer q.m_queue si.id db.id so rg
          dOff n slot) slot)) ∧
    (∀ (q : command_queue) (sb : buffer) (di : image_object) (sOff : Nat)
        (dor rg : Size3) (n : Nat) (slot : Bool) (B : Backend),
      q.m_queue ≠ 0 →
      enqueue_copy_buffer_to_image q sb di sOff dor rg n slot B =
        some (submit B (ClCall.copyBufferToImage q.m_queue sb.id di.id sOff
          dor rg n slot) slot)) ∧
    (∀ (q : command_queue) (devVer : Nat) (img : image_object)
        (qCtx fc : Nat) (o r : Size3) (n : Nat) (slot : Bool) (B : Backend),
      120 ≤ (get_version q.m_version devVer).value → q.m_queue ≠ 0 →
      img.ctx = qCtx →
      enqueue_fill_image q devVer img qCtx fc o r n slot B =
        some (submit B
          (ClCall.fillImage q.m_queue img.id fc o r n slot) slot)) ∧
    (∀ (q : command_queue) (devVer nmo mo fl n : Nat) (slot : Bool)
        (B : Backend), q.m_queue ≠ 0 →
      120 ≤ (get_version q.m_version devVer).value →
      enqueue_migrate_memory_objects q devVer nmo mo fl n slot B =
        some (submit B
          (ClCall.migrateMemObjects q.m_queue nmo mo fl n slot) slot)) ∧
    (∀ (q : command_queue) (kern : kernel) (qCtx wd : Nat)
        (gwo gws lws : Option (List Nat)) (n : Nat) (slot : Bool)
        (B : Backend), q.m_queue ≠ 0 → wd ≠ 0 → kern.ctx = qCtx →
      enqueue_nd_range_kernel q kern qCtx wd gwo gws lws n slot B =
        some (submit B (ClCall.ndRangeKernel q.m_queue kern.id wd gwo gws lws
          n slot) slot)) ∧
    (∀ (q : command_queue) (devVer : Nat) (kern : kernel) (qCtx n : Nat)
        (slot : Bool) (B : Backend), q.m_queue ≠ 0 → kern.ctx = qCtx →
      200 ≤ (get_version q.m_version devVer).value →
      enqueue_task q devVer kern qCtx n slot B =
        some (submit B (ClCall.ndRangeKernel q.m_queue kern.id 1 none
          (some [1]) (some [1]) n slot) slot)) ∧
    (∀ (q : command_queue) (devVer : Nat) (kern : kernel) (qCtx n : Nat)
        (slot : Bool) (B : Backend), q.m_queue ≠ 0 → kern.ctx = qCtx →
      (get_version q.m_version devVer).value < 200 →
      enqueue_task q devVer kern qCtx n slot B =
        some (submit B (ClCall.task q.m_queue kern.id n slot) slot)) ∧
    (∀ (q : command_queue) (uf a ca nmo ml aml n : Nat) (slot : Bool)
        (B : Backend), q.m_queue ≠ 0 →
      enqueue_native_kernel q uf a ca nmo ml aml n slot B =
        some (submit B (ClCall.nativeKernel q.m_queue uf a ca nmo ml aml n
          slot) slot)) ∧
    (∀ (q : command_queue) (devVer : Nat) (B : Backend), q.m_queue ≠ 0 →
      120 ≤ (get_version q.m_version devVer).value →
      enqueue_barrier q devVer B =
        some ([ClCall.barrierWithWaitList q.m_queue 0 false],
          Except.ok none)) ∧
    (∀ (q : command_queue) (devVer : Nat) (B : Backend), q.m_queue ≠ 0 →
      (get_version q.m_version devVer).value < 120 →
      enqueue_barrier q devVer B =
        some ([ClCall.barrier q.m_queue], Except.ok none)) ∧
    (∀ (q : command_queue) (devVer n : Nat) (slot : Bool) (B : Backend),
      q.m_queue ≠ 0 → 120 ≤ (get_version q.m_version devVer).value →
      enqueue_barrier_wl q devVer n slot B =
        some ([ClCall.barrierWithWaitList q.m_queue n slot],
          Except.ok (if slot then
            some (B.newEvent (ClCall.barrierWithWaitList q.m_queue n slot))
            else none))) ∧
    (∀ (q : command_queue) (devVer : Nat) (slot : Bool) (B : Backend),
      120 ≤ (get_version q.m_version devVer).value →
      enqueue_marker q devVer slot B =
        some (submit B (ClCall.markerWithWaitList q.m_queue 0 slot) slot)) ∧
    (∀ (q : command_queue) (devVer : Nat) (slot : Bool) (B : Backend),
      (get_version q.m_version devVer).value < 120 →
      enqueue_marker q devVer slot B =
        some (submit B (ClCall.marker q.m_queue slot) slot)) ∧
    (∀ (q : command_queue) (devVer n : Nat) (slot : Bool) (B : Backend),
      120 ≤ (get_version q.m_version devVer).value →
      enqueue_marker_wl q devVer n slot B =
        some (submit B
          (ClCall.markerWithWaitList q.m_queue n slot) slot)) ∧
    (∀ (q : command_queue) (devVer dp sp sz n : Nat) (slot : Bool)
        (B : Backend), 200 ≤ (get_version q.m_version devVer).value →
      enqueue_svm_memcpy q devVer dp sp sz n slot B =
        some (submit B
          (ClCall.svmMemcpy q.m_queue (!slot) dp sp sz n slot) slot)) ∧
    (∀ (q : command_queue) (devVer sv pat ps sz n : Nat) (slot : Bool)
        (B : Backend), 200 ≤ (get_version q.m_version devVer).value →
      enqueue_svm_fill q devVer sv pat ps sz n slot B =
        some (submit B
          (ClCall.svmMemFill q.m_queue sv pat ps sz n slot) slot)) ∧
    (∀ (q : command_queue) (devVer sv n : Nat) (slot : Bool) (B : Backend),
      200 ≤ (get_version q.m_version devVer).value →
      enqueue_svm_free q devVer sv n slot B =
        some (submit B (ClCall.svmFree q.m_queue 1 sv 0 0 n slot) slot)) ∧
    (∀ (q : command_queue) (devVer sv sz fl n : Nat) (slot : Bool)
        (B : Backend), 200 ≤ (get_version q.m_version devVer).value →
      enqueue_svm_map q devVer sv sz fl n slot B =
        some (submit B
          (ClCall.svmMap q.m_queue (!slot) fl sv sz n slot) slot)) ∧
    (∀ (q : command_queue) (devVer sv n : Nat) (slot : Bool) (B : Backend),
      200 ≤ (get_version q.m_version devVer).value →
      enqueue_svm_unmap q devVer sv n slot B =
        some (submit B (ClCall.svmUnmap q.m_queue sv n slot) slot)) := by
  refine ⟨?_, ?_, ?_, ?_, ?_, ?_, ?_, ?_, ?_, ?_, ?_, ?_, ?_, ?_, ?_, ?_,
    ?_, ?_, ?_, ?_, ?_, ?_, ?_, ?_, ?_, ?_, ?_, ?_, ?_, ?_, ?_, ?_, ?_, ?_,
    ?_⟩
  · intro B c slot hst
    simp [submit, hst]
  · intro B c slot hst
    simp [submitMap, hst]
  · intro q buf qCtx o sz hp n slot B hq hsz hctx hhp
    simp [enqueue_read_buffer, hq, hsz, hctx, hhp]
  · intro q devVer buf qCtx bo ho rg brp bsp hrp hsp hp n slot B hq hctx
      hhp hv
    simp [enqueue_read_buffer_rect, hq, hctx, hhp, Nat.not_lt.mpr hv]
  · intro q buf qCtx o sz hp n slot B hq hsz hctx hhp
    simp [enqueue_write_buffer, hq, hsz, hctx, hhp]
  · intro q devVer buf qCtx bo ho rg brp bsp hrp hsp hp n slot B hq hctx
      hhp hv
    simp [enqueue_write_buffer_rect, hq, hctx, hhp, Nat.not_lt.mpr hv]
  · intro q src dst qCtx sOff dOff sz n slot B hq hss hds hsc hdc
    simp [enqueue_copy_buffer, hq, hss, hds, hsc, hdc]
  · intro q devVer src dst qCtx so dor rg brp bsp hrp hsp n slot B hq hsc
      hdc hv
    simp [enqueue_copy_buffer_rect, hq, hsc, hdc, Nat.not_lt.mpr hv]
  · intro q devVer buf qCtx pat ps o sz n slot B hq hsz hctx hv
    simp [enqueue_fill_buffer, hq, hsz, hctx, Nat.not_lt.mpr hv]
  · intro q buf qCtx fl o sz n slot B hq hsz hctx
    simp [enqueue_map_buffer, hq, hsz, hctx]
  · intro q img qCtx fl o r n slot B hq hctx
    simp [enqueue_map_image, hq, hctx]
  · intro q memId memCtx qCtx mp n slot B hmc hq
    simp [enqueue_unmap_buffer, enqueue_unmap_mem_object, hmc, hq]
  · intro q mem mp n slot B hq
    simp [enqueue_unmap_mem_object, hq]
  · intro q img o r rp sp2 hp n slot B hq
    simp [enqueue_read_image, hq]
  · intro q img o r irp isp hp n slot B hq
    simp [enqueue_write_image, hq]
  · intro q si di so dor rg n slot B hq
    simp [enqueue_copy_image, hq]
  · intro q si db so rg dOff n slot B hq
    simp [enqueue_copy_image_to_buffer, hq]
  · intro q sb di sOff dor rg n slot B hq
    simp [enqueue_copy_buffer_to_image, hq]
  · intro q devVer img qCtx fc o r n slot B hv hq hctx
    simp [enqueue_fill_image, hq, hctx, Nat.not_lt.mpr hv]
  · intro q devVer nmo mo fl n slot B hq hv
    simp [enqueue_migrate_memory_objects, hq, Nat.not_lt.mpr hv]
  · intro q kern qCtx wd gwo gws lws n slot B hq hwd hctx
    simp [enqueue_nd_range_kernel, hq, hwd, hctx]
  · intro q devVer kern qCtx n slot B hq hctx hv
    simp [enqueue_task, hq, hctx, ge_iff_le, hv]
  · intro q devVer kern qCtx n slot B hq hctx hv
    simp [enqueue_task, hq, hctx, ge_iff_le, Nat.not_le.mpr hv]
  · intro q uf a ca nmo ml aml n slot B hq
    simp [enqueue_native_kernel, hq]
  · intro q devVer B hq hv
    simp [enqueue_barrier, hq, ge_iff_le, hv]
  · intro q devVer B hq hv
    simp [enqueue_barrier, hq, ge_iff_le, Nat.not_le.mpr hv]
  · intro q devVer n slot B hq hv
    simp [enqueue_barrier_wl, hq, Nat.not_lt.mpr hv]
  · intro q devVer slot B hv
    simp [enqueue_marker, ge_iff_le, hv]
  · intro q devVer slot B hv
    simp [enqueue_marker, ge_iff_le, Nat.not_le.mpr hv]
  · intro q devVer n slot B hv
    simp [enqueue_marker_wl, Nat.not_lt.mpr hv]
  · intro q devVer dp sp sz n slot B hv
    simp [enqueue_svm_memcpy, Nat.not_lt.mpr hv]
  · intro q devVer sv pat ps sz n slot B hv
    simp [enqueue_svm_fill, Nat.not_lt.mpr hv]
  · intro q devVer sv n slot B hv
    simp [enqueue_svm_free, Nat.not_lt.mpr hv]
  · intro q devVer sv sz fl n slot B hv
    simp [enqueue_svm_map, Nat.not_lt.mpr hv]
  · intro q devVer sv n slot B hv
    simp [enqueue_svm_unmap, Nat.not_lt.mpr hv]

/-- C4 counterexample: a backend that rejects the barrier call with
status -5 (not CL_SUCCESS), yet enqueue_barrier reports success — the
barrier overloads discard the backend status instead of raising it. -/
theorem C4_status_propagation_counterexample :
    enqueue_barrier ⟨1, 130⟩ 0 (failBackend (-5)) =
      some ([ClCall.barrierWithWaitList 1 0 false], Except.ok none) ∧
    (failBackend (-5)).status (ClCall.barrierWithWaitList 1 0 false) ≠
      CL_SUCCESS :=
  ⟨rfl, by decide⟩

/-- C4 witness: every modeled enqueue operation applied at a concrete
input against a backend that rejects every call with status -5. -/
theorem C4_status_propagation_witness :
    submit (failBackend (-5)) (ClCall.barrier 1) false =
      ([ClCall.barrier 1], Except.error (-5)) ∧
    submitMap (failBackend (-5)) (ClCall.mapBuffer 1 2 true 0 0 4 0 false)
      false = ([ClCall.mapBuffer 1 2 true 0 0 4 0 false],
        Except.error (-5)) ∧
    enqueue_read_buffer ⟨1, 130⟩ ⟨2, 8, 7⟩ 7 0 4 5 0 false
        (failBackend (-5)) =
      some (submit (failBackend (-5))
        (ClCall.readBuffer 1 2 true 0 4 5 0 false) false) ∧
    enqueue_read_buffer_rect ⟨1, 130⟩ 0 ⟨2, 8, 7⟩ 7 ⟨0, 0, 0⟩ ⟨0, 0, 0⟩
        ⟨1, 1, 1⟩ 0 0 0 0 5 0 false (failBackend (-5)) =
      some (submit (failBackend (-5)) (ClCall.readBufferRect 1 2 true
        ⟨0, 0, 0⟩ ⟨0, 0, 0⟩ ⟨1, 1, 1⟩ 0 0 0 0 5 0 false) false) ∧
    enqueue_write_buffer ⟨1, 130⟩ ⟨2, 8, 7⟩ 7 0 4 5 0 false
        (failBackend (-5)) =
      some (submit (failBackend (-5))
        (ClCall.writeBuffer 1 2 true 0 4 5 0 false) false) ∧
    enqueue_write_buffer_rect ⟨1, 130⟩ 0 ⟨2, 8, 7⟩ 7 ⟨0, 0, 0⟩ ⟨0, 0, 0⟩
        ⟨1, 1, 1⟩ 0 0 0 0 5 0 false (failBackend (-5)) =
      some (submit (failBackend (-5)) (ClCall.writeBufferRect 1 2 true
        ⟨0, 0, 0⟩ ⟨0, 0, 0⟩ ⟨1, 1, 1⟩ 0 0 0 0 5 0 false) false) ∧
    enqueue_copy_buffer ⟨1, 130⟩ ⟨2, 8, 7⟩ ⟨3, 8, 7⟩ 7 0 0 4 0 false
        (failBackend (-5)) =
      some (submit (failBackend (-5))
        (ClCall.copyBuffer 1 2 3 0 0 4 0 false) false) ∧
    enqueue_copy_buffer_rect ⟨1, 130⟩ 0 ⟨2, 8, 7⟩ ⟨3, 8, 7⟩ 7 ⟨0, 0, 0⟩
        ⟨0, 0, 0⟩ ⟨1, 1, 1⟩ 0 0 0 0 0 false (failBackend (-5)) =
      some (submit (failBackend (-5)) (ClCall.copyBufferRect 1 2 3 ⟨0, 0, 0⟩
        ⟨0, 0, 0⟩ ⟨1, 1, 1⟩ 0 0 0 0 0 false) false) ∧
    enqueue_fill_buffer ⟨1, 130⟩ 0 ⟨2, 8, 7⟩ 7 9 1 0 8 0 false
        (failBackend (-5)) =
      some (submit (failBackend (-5))
        (ClCall.fillBuffer 1 2 9 1 0 8 0 false) false) ∧
    enqueue_map_buffer ⟨1, 130⟩ ⟨2, 8, 7⟩ 7 0 0 4 0 false
        (failBackend (-5)) =
      some (submitMap (failBackend (-5))
        (ClCall.mapBuffer 1 2 true 0 0 4 0 false) false) ∧
    enqueue_map_image ⟨1, 130⟩ ⟨4, 7, 4, 2, 1, 4⟩ 7 0 ⟨0, 0, 0⟩ ⟨1, 1, 1⟩
        0 false (failBackend (-5)) =
      some (submitMap (failBackend (-5))
        (ClCall.mapImage 1 4 true 0 ⟨0, 0, 0⟩ ⟨1, 1, 1⟩ 0 false) false) ∧
    enqueue_unmap_buffer ⟨1, 130⟩ 4 7 7 9 0 false (failBackend (-5)) =
      some (submit (failBackend (-5))
        (ClCall.unmapMemObject 1 4 9 0 false) false) ∧
    enqueue_unmap_mem_object ⟨1, 130⟩ 4 9 0 false (failBackend (-5)) =
      some (submit (failBackend (-5))
        (ClCall.unmapMemObject 1 4 9 0 false) false) ∧
    enqueue_read_image ⟨1, 130⟩ ⟨4, 7, 4, 2, 1, 4⟩ ⟨0, 0, 0⟩ ⟨1, 1, 1⟩ 0 0
        5 0 false (failBackend (-5)) =
      some (submit (failBackend (-5)) (ClCall.readImage 1 4 true ⟨0, 0, 0⟩
        ⟨1, 1, 1⟩ 0 0 5 0 false) false) ∧
    enqueue_write_image ⟨1, 130⟩ ⟨4, 7, 4, 2, 1, 4⟩ ⟨0, 0, 0⟩ ⟨1, 1, 1⟩ 0 0
        5 0 false (failBackend (-5)) =
      some (submit (failBackend (-5)) (ClCall.writeImage 1 4 true ⟨0, 0, 0⟩
        ⟨1, 1, 1⟩ 0 0 5 0 false) false) ∧
    enqueue_copy_image ⟨1, 130⟩ ⟨4, 7, 4, 2, 1, 4⟩ ⟨5, 7, 4, 2, 1, 4⟩
        ⟨0, 0, 0⟩ ⟨0, 0, 0⟩ ⟨1, 1, 1⟩ 0 false (failBackend (-5)) =
      some (submit (failBackend (-5)) (ClCall.copyImage 1 4 5 ⟨0, 0, 0⟩
        ⟨0, 0, 0⟩ ⟨1, 1, 1⟩ 0 false) false) ∧
    enqueue_copy_image_to_buffer ⟨1, 130⟩ ⟨4, 7, 4, 2, 1, 4⟩ ⟨2, 8, 7⟩
        ⟨0, 0, 0⟩ ⟨1, 1, 1⟩ 0 0 false (failBackend (-5)) =
      some (submit (failBackend (-5)) (ClCall.copyImageToBuffer 1 4 2
        ⟨0, 0, 0⟩ ⟨1, 1, 1⟩ 0 0 false) false) ∧
    enqueue_copy_buffer_to_image ⟨1, 130⟩ ⟨2, 8, 7⟩ ⟨4, 7, 4, 2, 1, 4⟩ 0
        ⟨0, 0, 0⟩ ⟨1, 1, 1⟩ 0 false (failBackend (-5)) =
      some (submit (failBackend (-5)) (ClCall.copyBufferToImage 1 2 4 0
        ⟨0, 0, 0⟩ ⟨1, 1, 1⟩ 0 false) false) ∧
    enqueue_fill_image ⟨1, 130⟩ 0 ⟨4, 7, 4, 2, 1, 4⟩ 7 9 ⟨0, 0, 0⟩
        ⟨1, 1, 1⟩ 0 false (failBackend (-5)) =
      some (submit (failBackend (-5))
        (ClCall.fillImage 1 4 9 ⟨0, 0, 0⟩ ⟨1, 1, 1⟩ 0 false) false) ∧
    enqueue_migrate_memory_objects ⟨1, 130⟩ 0 1 9 0 0 false
        (failBackend (-5)) =
      some (submit (failBackend (-5))
        (ClCall.migrateMemObjects 1 1 9 0 0 false) false) ∧
    enqueue_nd_range_kernel ⟨1, 130⟩ ⟨6, 7⟩ 7 1 none (some [8]) none 0 false
        (failBackend (-5)) =
      some (submit (failBackend (-5)) (ClCall.ndRangeKernel 1 6 1 none
        (some [8]) none 0 false) false) ∧
    enqueue_task ⟨1, 210⟩ 0 ⟨6, 7⟩ 7 0 false (failBackend (-5)) =
      some (submit (failBackend (-5)) (ClCall.ndRangeKernel 1 6 1 none
        (some [1]) (some [1]) 0 false) false) ∧
    enqueue_task ⟨1, 130⟩ 0 ⟨6, 7⟩ 7 0 false (failBackend (-5)) =
      some (submit (failBackend (-5)) (ClCall.task 1 6 0 false) false) ∧
    enqueue_native_kernel ⟨1, 130⟩ 9 8 4 0 0 0 0 false (failBackend (-5)) =
      some (submit (failBackend (-5))
        (ClCall.nativeKernel 1 9 8 4 0 0 0 0 false) false) ∧
    enqueue_barrier ⟨1, 130⟩ 0 (failBackend (-5)) =
      some ([ClCall.barrierWithWaitList 1 0 false], Except.ok none) ∧
    enqueue_barrier ⟨1, 100⟩ 0 (failBackend (-5)) =
      some ([ClCall.barrier 1], Except.ok none) ∧
    enqueue_barrier_wl ⟨1, 130⟩ 0 2 false (failBackend (-5)) =
      some ([ClCall.barrierWithWaitList 1 2 false], Except.ok none) ∧
    enqueue_marker ⟨1, 130⟩ 0 true (failBackend (-5)) =
      some (submit (failBackend (-5))
        (ClCall.markerWithWaitList 1 0 true) true) ∧
    enqueue_marker ⟨1, 100⟩ 0 true (failBackend (-5)) =
      some (submit (failBackend (-5)) (ClCall.marker 1 true) true) ∧
    enqueue_marker_wl ⟨1, 130⟩ 0 2 false (failBackend (-5)) =
      some (submit (failBackend (-5))
        (ClCall.markerWithWaitList 1 2 false) false) ∧
    enqueue_svm_memcpy ⟨1, 210⟩ 0 4 5 16 0 false (failBackend (-5)) =
      some (submit (failBackend (-5))
        (ClCall.svmMemcpy 1 true 4 5 16 0 false) false) ∧
    enqueue_svm_fill ⟨1, 210⟩ 0 4 9 1 16 0 false (failBackend (-5)) =
      some (submit (failBackend (-5))
        (ClCall.svmMemFill 1 4 9 1 16 0 false) false) ∧
    enqueue_svm_free ⟨1, 210⟩ 0 4 0 false (failBackend (-5)) =
      some (submit (failBackend (-5))
        (ClCall.svmFree 1 1 4 0 0 0 false) false) ∧
    enqueue_svm_map ⟨1, 210⟩ 0 4 16 0 0 false (failBackend (-5)) =
      some (submit (failBackend (-5))
        (ClCall.svmMap 1 true 0 4 16 0 false) false) ∧
    enqueue_svm_unmap ⟨1, 210⟩ 0 4 0 false (failBackend (-5)) =
      some (submit (failBackend (-5)) (ClCall.svmUnmap 1 4 0 false) false) := by
  obtain ⟨p1, p2, p3, p4, p5, p6, p7, p8, p9, p10, p11, p12, p13, p14, p15,
    p16, p17, p18, p19, p20, p21, p22, p23, p24, p25, p26, p27, p28, p29,
    p30, p31, p32, p33, p34, p35⟩ := C4_status_propagation
  exact ⟨p1 _ _ _ (by decide), p2 _ _ _ (by decide),
    p3 _ _ _ _ _ _ _ _ _ (by decide) (by decide) (by decide) (by decide),
    p4 _ _ _ _ _ _ _ _ _ _ _ _ _ _ _ (by decide) (by decide) (by decide)
      (by decide),
    p5 _ _ _ _ _ _ _ _ _ (by decide) (by decide) (by decide) (by decide),
    p6 _ _ _ _ _ _ _ _ _ _ _ _ _ _ _ (by decide) (by decide) (by decide)
      (by decide),
    p7 _ _ _ _ _ _ _ _ _ _ (by decide) (by decide) (by decide) (by decide)
      (by decide),
    p8 _ _ _ _ _ _ _ _ _ _ _ _ _ _ _ (by decide) (by decide) (by decide)
      (by decide),
    p9 _ _ _ _ _ _ _ _ _ _ _ (by decide) (by decide) (by decide)
      (by decide),
    p10 _ _ _ _ _ _ _ _ _ (by decide) (by decide) (by decide),
    p11 _ _ _ _ _ _ _ _ _ (by decide) (by decide),
    p12 _ _ _ _ _ _ _ _ (by decide) (by decide),
    p13 _ _ _ _ _ _ (by decide),
    p14 _ _ _ _ _ _ _ _ _ _ (by decide),
    p15 _ _ _ _ _ _ _ _ _ _ (by decide),
    p16 _ _ _ _ _ _ _ _ _ (by decide),
    p17 _ _ _ _ _ _ _ _ _ (by decide),
    p18 _ _ _ _ _ _ _ _ _ (by decide),
    p19 _ _ _ _ _ _ _ _ _ _ (by decide) (by decide) (by decide),
    p20 _ _ _ _ _ _ _ _ (by decide) (by decide),
    p21 _ _ _ _ _ _ _ _ _ _ (by decide) (by decide) (by decide),
    p22 _ _ _ _ _ _ _ (by decide) (by decide) (by decide),
    p23 _ _ _ _ _ _ _ (by decide) (by decide) (by decide),
    p24 _ _ _ _ _ _ _ _ _ _ (by decide),
    p25 _ _ _ (by decide) (by decide),
    p26 _ _ _ (by decide) (by decide),
    p27 _ _ _ _ _ (by decide) (by decide),
    p28 _ _ _ _ (by decide),
    p29 _ _ _ _ (by decide),
    p30 _ _ _ _ _ (by decide),
    p31 _ _ _ _ _ _ _ _ (by decide),
    p32 _ _ _ _ _ _ _ _ _ (by decide),
    p33 _ _ _ _ _ _ (by decide),
    p34 _ _ _ _ _ _ _ _ (by decide),
    p35 _ _ _ _ _ _ (by decide)⟩

end Compute
